import Mathlib

/-!
Verification of the bball_shots signal-detection core (core.js).

The JavaScript source is shallowly embedded over the rationals: every
acceleration magnitude, timestamp and threshold is a rational number, and
Math.sqrt is modelled by sqrtQ, a computable rational square root that is
exact on perfect rational squares (every concrete input used in a theorem
below keeps all variances perfect squares, so sqrtQ agrees with the real
square root there).  Stateful classes become explicit state-passing
functions.  Diagnostic string fields (reason, name, detail) carried by the
JS result objects are omitted from the records; no control flow depends on
them.
-/

set_option allowUnsafeReducibility true in
attribute [semireducible] Rat.add Rat.mul Rat.inv Rat.sub Rat.ofScientific

/-- Newton iteration for the integer square root, driven by explicit fuel so
that it is structurally recursive (and hence kernel-reducible).  The guess
strictly decreases at every recursive call, so any fuel of at least the
initial guess makes it reach the fixed point. -/
def sqrtIter : ℕ → ℕ → ℕ → ℕ
  | 0, _, guess => guess
  | fuel + 1, n, guess =>
    let next := (guess + n / guess) / 2
    if next < guess then sqrtIter fuel n next else guess

/-- Integer square root (same Newton iteration as Nat.sqrt, with fuel n,
which is more than the iteration ever consumes). -/
def natSqrt (n : ℕ) : ℕ :=
  if n ≤ 1 then n else sqrtIter n n (n / 2)

/-- Model of JavaScript Math.sqrt on the rationals: exact whenever the
argument is a square of a rational (numerator and denominator of the
normalised fraction are perfect squares), an integer-square-root based
approximation otherwise.  Negative input is mapped to 0 (never exercised:
the code only takes square roots of variances). -/
def sqrtQ (q : ℚ) : ℚ :=
  if q ≤ 0 then 0 else (natSqrt q.num.toNat : ℚ) / (natSqrt q.den : ℚ)

/-- slice.reduce((a, b) => a + b, 0) -/
def sumQ (l : List ℚ) : ℚ := l.foldl (· + ·) 0

/-- mean = slice.reduce(..) / slice.length -/
def meanOf (l : List ℚ) : ℚ := sumQ l / l.length

/-- variance = slice.reduce((a, v) => a + (v - mean) ** 2, 0) / slice.length -/
def varOf (l : List ℚ) : ℚ :=
  (l.foldl (fun a v => a + (v - meanOf l) * (v - meanOf l)) 0) / l.length

/-- One IMU sample as consumed by the engine: {t, tRel, aMag, gx, gy, gz}.
The raw axis values ax, ay, az are never read by the detection code
(aMag is precomputed by the sensor collaborator), so they are not modelled. -/
structure Sample where
  t : ℚ
  tRel : ℚ
  aMag : ℚ
  gx : ℚ
  gy : ℚ
  gz : ℚ
deriving DecidableEq, Repr

instance : Inhabited Sample := ⟨⟨0, 0, 0, 0, 0, 0⟩⟩

/-- aMags[j] (JavaScript out-of-range indexing never occurs on the paths
reachable from the public entry points; 0 is the default value). -/
def amag (aMags : List ℚ) (j : ℕ) : ℚ := aMags.getD j 0

/-- m is the minimum value of the list l. -/
def isMinOf (l : List ℚ) (m : ℚ) : Prop := m ∈ l ∧ ∀ x ∈ l, m ≤ x

/-! ### IMUBuffer -/

/-- class IMUBuffer: bounded rolling store with absolute-index tracking. -/
structure IMUBuffer where
  maxSize : ℕ
  shiftSize : ℕ
  data : List Sample
  totalPushed : ℕ
  offset : ℕ
deriving DecidableEq, Repr

/-- constructor(maxSize = 3000, shiftSize = 1000) -/
def IMUBuffer.init (maxSize shiftSize : ℕ) : IMUBuffer :=
  ⟨maxSize, shiftSize, [], 0, 0⟩

/-- IMUBuffer.push: append, and when capacity is exceeded drop the oldest
shiftSize samples (data.slice(shiftSize)) while advancing offset. -/
def IMUBuffer.push (b : IMUBuffer) (s : Sample) : IMUBuffer :=
  let d := b.data ++ [s]
  if b.maxSize < d.length then
    { b with data := d.drop b.shiftSize, totalPushed := b.totalPushed + 1,
             offset := b.offset + b.shiftSize }
  else
    { b with data := d, totalPushed := b.totalPushed + 1 }

/-- IMUBuffer.absIndex(i) = i + offset -/
def IMUBuffer.absIndex (b : IMUBuffer) (i : ℕ) : ℕ := i + b.offset

/-- Push a whole list of samples in order. -/
def IMUBuffer.pushAll (b : IMUBuffer) (ss : List Sample) : IMUBuffer :=
  ss.foldl IMUBuffer.push b

/-- The sample currently stored at absolute index a (none when a has been
compacted away or not yet assigned).  Absolute index a corresponds to
buffer-relative index a - offset, the inverse of absIndex. -/
def IMUBuffer.liveAt (b : IMUBuffer) (a : ℕ) : Option Sample :=
  if a < b.offset then none else b.data[a - b.offset]?

/-! ### MovementDetector -/

def MOVEMENT_WINDOW : ℕ := 20
def MOVEMENT_THRESHOLD : ℚ := 0.8
def MOVEMENT_HYSTERESIS_MS : ℚ := 800

/-- class MovementDetector state. -/
structure MovementDetector where
  window : List ℚ
  isMoving : Bool
  lastTransitionTime : ℚ
  intensity : ℚ
deriving DecidableEq, Repr

def MovementDetector.init : MovementDetector := ⟨[], false, 0, 0⟩

/-- The rolling window after this.window.push(aMag) and the conditional
this.window.shift() that keeps at most MOVEMENT_WINDOW entries. -/
def MovementDetector.windowAfter (st : MovementDetector) (aMag : ℚ) : List ℚ :=
  let w0 := st.window ++ [aMag]
  if MOVEMENT_WINDOW < w0.length then w0.tail else w0

/-- this.intensity = Math.max(0, Math.min(1, (std - 0.3) / 1.5)) over the
std of the updated window. -/
def MovementDetector.intensityOf (st : MovementDetector) (aMag : ℚ) : ℚ :=
  max 0 (min 1 ((sqrtQ (varOf (st.windowAfter aMag)) - 0.3) / 1.5))

/-- MovementDetector.processSample(aMag, t): returns the isMoving result
together with the updated detector state (the JS method mutates this). -/
def MovementDetector.processSample (st : MovementDetector) (aMag t : ℚ) :
    Bool × MovementDetector :=
  if (st.windowAfter aMag).length < MOVEMENT_WINDOW then
    (st.isMoving, { st with window := st.windowAfter aMag })
  else
    if decide (MOVEMENT_THRESHOLD < sqrtQ (varOf (st.windowAfter aMag))) ≠ st.isMoving then
      if decide (MOVEMENT_THRESHOLD < sqrtQ (varOf (st.windowAfter aMag))) then
        (true, { st with window := st.windowAfter aMag, isMoving := true,
                         lastTransitionTime := t,
                         intensity := st.intensityOf aMag })
      else
        if MOVEMENT_HYSTERESIS_MS < t - st.lastTransitionTime then
          (false, { st with window := st.windowAfter aMag, isMoving := false,
                            lastTransitionTime := t,
                            intensity := st.intensityOf aMag })
        else
          (st.isMoving, { st with window := st.windowAfter aMag,
                                  intensity := st.intensityOf aMag })
    else
      (st.isMoving, { st with window := st.windowAfter aMag,
                              lastTransitionTime := t,
                              intensity := st.intensityOf aMag })

/-! ### ShotDetectorConsensus -/

/-- Resolution of a JS `opt || default` for numeric options: undefined and 0
both fall back to the default. -/
def resolveN (o : Option ℕ) (d : ℕ) : ℕ :=
  match o with
  | some n => if n = 0 then d else n
  | none => d

/-- Resolution of a JS `opt || default` for rational options. -/
def resolveQ (o : Option ℚ) (d : ℚ) : ℚ :=
  match o with
  | some q => if q = 0 then d else q
  | none => d

/-- Result of one consensus method: {vote, confidence} (the diagnostic
name/detail strings are omitted). -/
structure MethodResult where
  vote : Bool
  confidence : ℚ
deriving DecidableEq, Repr

structure WindowSigmaOpts where
  windowSize : Option ℕ
  sigma : Option ℚ
deriving DecidableEq, Repr

structure EnvelopeOpts where
  shortWindow : Option ℕ
  longWindow : Option ℕ
  sigma : Option ℚ
deriving DecidableEq, Repr

structure DipDepthOpts where
  maxDip : Option ℚ
deriving DecidableEq, Repr

structure ProminenceOpts where
  neighborhood : Option ℕ
  minProminence : Option ℚ
deriving DecidableEq, Repr

structure ConsensusOpts where
  windowSigma : Option WindowSigmaOpts
  envelopeRatio : Option EnvelopeOpts
  dipDepth : Option DipDepthOpts
  peakProminence : Option ProminenceOpts
  minVotes : Option ℕ
deriving DecidableEq, Repr

/-- The empty options object {}. -/
def ConsensusOpts.empty : ConsensusOpts := ⟨none, none, none, none, none⟩

/-- Method 1: window sigma spike (ShotDetectorConsensus.windowSigma). -/
def ShotDetectorConsensus.windowSigma (aMags : List ℚ) (peakIdx : ℕ)
    (opts : Option WindowSigmaOpts) : MethodResult :=
  let windowSize := resolveN (opts.bind (·.windowSize)) 200
  let sigma := resolveQ (opts.bind (·.sigma)) 4.0
  let halfW := windowSize / 2
  let start := peakIdx - halfW
  let stop := min aMags.length (peakIdx + halfW)
  let slice := (aMags.take stop).drop start
  if slice.length < 40 then ⟨false, 0⟩
  else
    let mean := meanOf slice
    let std := sqrtQ (varOf slice)
    let zScore := (amag aMags peakIdx - mean) / (if std = 0 then 1 else std)
    ⟨decide (sigma < zScore), min 1 (zScore / (sigma + 2))⟩

/-- Math.min(...vals) on a nonempty list (empty case never reached). -/
def listMin : List ℚ → ℚ
  | [] => 0
  | x :: xs => xs.foldl min x

/-- Math.max(...vals) on a nonempty list (empty case never reached). -/
def listMax : List ℚ → ℚ
  | [] => 0
  | x :: xs => xs.foldl max x

/-- Method 2: envelope ratio (ShotDetectorConsensus.envelopeRatio). -/
def ShotDetectorConsensus.envelopeRatio (aMags : List ℚ) (peakIdx : ℕ)
    (opts : Option EnvelopeOpts) : MethodResult :=
  let shortW := resolveN (opts.bind (·.shortWindow)) 50
  let longW := resolveN (opts.bind (·.longWindow)) 200
  let sigma := resolveQ (opts.bind (·.sigma)) 4.0
  let sStart := peakIdx - shortW / 2
  let sEnd := min aMags.length (sStart + shortW)
  let shortSlice := (aMags.take sEnd).drop sStart
  if shortSlice.length < 10 then ⟨false, 0⟩
  else
    let lEnd := peakIdx - shortW / 2
    let lStart := lEnd - longW
    let longSlice := (aMags.take lEnd).drop lStart
    if longSlice.length < 20 then ⟨false, 0⟩
    else
      let shortRange := listMax shortSlice - listMin shortSlice
      let longStd := sqrtQ (varOf longSlice)
      let ratio := if 0 < longStd then shortRange / longStd else shortRange
      ⟨decide (sigma < ratio), min 1 (ratio / (sigma + 3))⟩

/-- Method 3: dip depth (ShotDetectorConsensus.dipDepth). -/
def ShotDetectorConsensus.dipDepth (aMags : List ℚ) (peakIdx dipIdx : ℕ)
    (opts : Option DipDepthOpts) : MethodResult :=
  let maxDipForShot := resolveQ (opts.bind (·.maxDip)) 5.0
  let dipVal := amag aMags dipIdx
  let pass := decide (dipVal < maxDipForShot)
  ⟨pass, if pass then min 1 ((maxDipForShot - dipVal) / maxDipForShot) else 0⟩

/-- Method 4: peak prominence (ShotDetectorConsensus.peakProminence).
The left/right valley scans are min-folds over the neighborhood; fold
direction is immaterial for a running minimum, so both are folded left. -/
def ShotDetectorConsensus.peakProminence (aMags : List ℚ) (peakIdx : ℕ)
    (opts : Option ProminenceOpts) : MethodResult :=
  let neighborhoodSize := resolveN (opts.bind (·.neighborhood)) 100
  let minProminence := resolveQ (opts.bind (·.minProminence)) 5.0
  let start := peakIdx - neighborhoodSize
  let stop := min aMags.length (peakIdx + neighborhoodSize)
  let leftMin := (List.range' start (peakIdx - start)).foldl
    (fun m j => if amag aMags j < m then amag aMags j else m) (amag aMags peakIdx)
  let rightMin := (List.range' (peakIdx + 1) (stop - (peakIdx + 1))).foldl
    (fun m j => if amag aMags j < m then amag aMags j else m) (amag aMags peakIdx)
  let prominence := amag aMags peakIdx - max leftMin rightMin
  ⟨decide (minProminence < prominence), min 1 (prominence / (minProminence * 2))⟩

/-- The quorum rule: isShot = votes >= minVotes. -/
def consensusIsShot (votes minVotes : ℕ) : Bool := decide (minVotes ≤ votes)

/-- Consensus outcome record (methods keep their order of evaluation). -/
structure ConsensusResult where
  isShot : Bool
  votes : ℕ
  total : ℕ
  confidence : ℚ
  methods : List MethodResult
deriving DecidableEq, Repr

/-- ShotDetectorConsensus.evaluate: run all four detectors and apply the
quorum rule (minVotes defaults to 3 via `opts.minVotes || 3`). -/
def ShotDetectorConsensus.evaluate (aMags : List ℚ) (peakIdx dipIdx recIdx : ℕ)
    (opts : ConsensusOpts) : ConsensusResult :=
  let methods := [
    ShotDetectorConsensus.windowSigma aMags peakIdx opts.windowSigma,
    ShotDetectorConsensus.envelopeRatio aMags peakIdx opts.envelopeRatio,
    ShotDetectorConsensus.dipDepth aMags peakIdx dipIdx opts.dipDepth,
    ShotDetectorConsensus.peakProminence aMags peakIdx opts.peakProminence]
  let votes := (methods.filter (·.vote)).length
  let total := methods.length
  let minVotes := resolveN opts.minVotes 3
  ⟨consensusIsShot votes minVotes, votes, total, (votes : ℚ) / (total : ℚ), methods⟩

/-! ### MotionCalibrator -/

/-- The 12-dimensional feature vector extracted around a peak/dip/recovery
triple (label and idx bookkeeping fields attached by extractPatterns are
not part of the numeric vector and are omitted). -/
structure FeatureVec where
  peakMag : ℚ
  dipMag : ℚ
  recoveryMag : ℚ
  range : ℚ
  dipRatio : ℚ
  peakToDipSamples : ℚ
  dipToRecSamples : ℚ
  totalDuration : ℚ
  gyroMagAtPeak : ℚ
  gyroMagAtDip : ℚ
  maxGyroInWindow : ℚ
  gyroDipToRec : ℚ
deriving DecidableEq, Repr

/-- gyroMag(s) = sqrt(gx*gx + gy*gy + gz*gz) (the `|| 0` defaults are
vacuous here: every sample carries its gyro components). -/
def gyroMagOf (s : Sample) : ℚ := sqrtQ (s.gx * s.gx + s.gy * s.gy + s.gz * s.gz)

/-- MotionCalibrator._extractFeatures.  The JS guard peakIdx < 0 is vacuous
over natural-number indices; the sample null-checks after the bounds check
are vacuous over a total list lookup. -/
def MotionCalibrator.extractFeatures (imuData : List Sample)
    (peakIdx dipIdx recIdx : ℕ) (baselineMean : ℚ) : Option FeatureVec :=
  if imuData.length ≤ dipIdx ∨ imuData.length ≤ recIdx then none
  else
    let peakSample := imuData.getD peakIdx default
    let dipSample := imuData.getD dipIdx default
    let recSample := imuData.getD recIdx default
    let peakMag := peakSample.aMag
    let dipMag := dipSample.aMag
    let recoveryMag := recSample.aMag
    let range := peakMag - dipMag
    let dipRatio := if 0 < baselineMean then dipMag / baselineMean else 1
    let winStart := peakIdx - 5
    let winEnd := min (imuData.length - 1) (recIdx + 5)
    let maxGyroInWindow := (List.range' winStart (winEnd + 1 - winStart)).foldl
      (fun m j => let g := gyroMagOf (imuData.getD j default)
                  if m < g then g else m) 0
    let dipRecRange := List.range' dipIdx (recIdx + 1 - dipIdx)
    let gyroDipToRec :=
      if dipRecRange.length = 0 then 0
      else (dipRecRange.foldl (fun a j => a + gyroMagOf (imuData.getD j default)) 0) /
           (dipRecRange.length : ℚ)
    some {
      peakMag := peakMag, dipMag := dipMag, recoveryMag := recoveryMag,
      range := range, dipRatio := dipRatio,
      peakToDipSamples := (dipIdx : ℚ) - (peakIdx : ℚ),
      dipToRecSamples := (recIdx : ℚ) - (dipIdx : ℚ),
      totalDuration := (recIdx : ℚ) - (peakIdx : ℚ),
      gyroMagAtPeak := gyroMagOf peakSample,
      gyroMagAtDip := gyroMagOf dipSample,
      maxGyroInWindow := maxGyroInWindow,
      gyroDipToRec := gyroDipToRec }

/-- Per-feature statistics {mean, std, min, max}. -/
structure FeatureStat where
  mean : ℚ
  std : ℚ
  min : ℚ
  max : ℚ
deriving DecidableEq, Repr

/-- Statistics of one feature column.  The JS null/NaN filter on vals is the
identity over well-typed rational feature vectors, and its zero-filled
fallback branch (vals empty) is kept for faithfulness. -/
def statOf (vals : List ℚ) : FeatureStat :=
  if vals.length = 0 then ⟨0, 0, 0, 0⟩
  else ⟨meanOf vals, sqrtQ (varOf vals), listMin vals, listMax vals⟩

/-- Per-activity calibration profile: pattern count plus one FeatureStat per
feature key, in the order of the JS featureKeys array. -/
structure Profile where
  count : ℕ
  peakMag : FeatureStat
  dipMag : FeatureStat
  recoveryMag : FeatureStat
  range : FeatureStat
  dipRatio : FeatureStat
  peakToDipSamples : FeatureStat
  dipToRecSamples : FeatureStat
  totalDuration : FeatureStat
  gyroMagAtPeak : FeatureStat
  gyroMagAtDip : FeatureStat
  maxGyroInWindow : FeatureStat
  gyroDipToRec : FeatureStat
deriving DecidableEq, Repr

/-- MotionCalibrator.computeProfile: null for an empty pattern list (a JS
null/undefined argument takes the same guard), otherwise per-feature stats. -/
def MotionCalibrator.computeProfile (patterns : List FeatureVec) : Option Profile :=
  match patterns with
  | [] => none
  | _ :: _ => some {
      count := patterns.length,
      peakMag := statOf (patterns.map (·.peakMag)),
      dipMag := statOf (patterns.map (·.dipMag)),
      recoveryMag := statOf (patterns.map (·.recoveryMag)),
      range := statOf (patterns.map (·.range)),
      dipRatio := statOf (patterns.map (·.dipRatio)),
      peakToDipSamples := statOf (patterns.map (·.peakToDipSamples)),
      dipToRecSamples := statOf (patterns.map (·.dipToRecSamples)),
      totalDuration := statOf (patterns.map (·.totalDuration)),
      gyroMagAtPeak := statOf (patterns.map (·.gyroMagAtPeak)),
      gyroMagAtDip := statOf (patterns.map (·.gyroMagAtDip)),
      maxGyroInWindow := statOf (patterns.map (·.maxGyroInWindow)),
      gyroDipToRec := statOf (patterns.map (·.gyroDipToRec)) }

/-- The four activity profiles of a calibration set. -/
structure Profiles where
  walking : Option Profile
  running : Option Profile
  dribbling : Option Profile
  shooting : Option Profile
deriving DecidableEq, Repr

/-- A calibration blob as read by classify.  A JS object without a profiles
field ({} included) is modelled by profiles = none; timestamp and
patternCounts are never read by the classifier and are omitted. -/
structure Calibration where
  profiles : Option Profiles
deriving DecidableEq, Repr

/-- Classification outcome {isShot, confidence} (reason string omitted). -/
structure ClassifyResult where
  isShot : Bool
  confidence : ℚ
deriving DecidableEq, Repr

/-- The stage-2 weight table paired with the feature value and profile stat
for each of the 12 keys, in the JS object order. -/
def featurePairs (f : FeatureVec) (p : Profile) : List (ℚ × ℚ × FeatureStat) :=
  [(1, f.peakMag, p.peakMag), (3, f.dipMag, p.dipMag), (3, f.dipRatio, p.dipRatio),
   (1, f.recoveryMag, p.recoveryMag), (2, f.range, p.range),
   (0.5, f.peakToDipSamples, p.peakToDipSamples),
   (0.5, f.dipToRecSamples, p.dipToRecSamples),
   (0.5, f.totalDuration, p.totalDuration),
   (1, f.gyroMagAtPeak, p.gyroMagAtPeak), (1, f.gyroMagAtDip, p.gyroMagAtDip),
   (1.5, f.maxGyroInWindow, p.maxGyroInWindow),
   (2.5, f.gyroDipToRec, p.gyroDipToRec)]

/-- distTo(profile): weighted mean z-score distance; none models the JS
Infinity returned for a missing profile or a zero total weight. -/
def distTo (f : FeatureVec) (p : Option Profile) : Option ℚ :=
  match p with
  | none => none
  | some prof =>
    let acc := (featurePairs f prof).foldl
      (fun (a : ℚ × ℚ) wfs =>
        if wfs.2.2.std = 0 then a
        else (a.1 + |wfs.2.1 - wfs.2.2.mean| / wfs.2.2.std * wfs.1, a.2 + wfs.1))
      (0, 0)
    if 0 < acc.2 then some (acc.1 / acc.2) else none

/-- Math.min over possibly-Infinity distances. -/
def minInf (a b : Option ℚ) : Option ℚ :=
  match a, b with
  | none, y => y
  | some x, none => some x
  | some x, some y => some (min x y)

/-- The comparison shootDist > minNoiseDist + margin under JS Infinity
semantics (Infinity > Infinity + m is false). -/
def gtInfPlus (a b : Option ℚ) (m : ℚ) : Bool :=
  match a, b with
  | none, none => false
  | none, some _ => true
  | some _, none => false
  | some x, some y => decide (y + m < x)

/-- MotionCalibrator.classify: fail-open on a missing/incomplete calibration,
stage-1 hard reject on a gait-like shallow dip, stage-2 weighted
nearest-profile decision.  In the two stage-2 confidence formulas the cases
reachable only with an infinite distance are clamped to 1 (Infinity / 3
exceeds the Math.min cap); the doubly-infinite accept case, NaN in JS, is
mapped to 0 - no claim depends on it. -/
def MotionCalibrator.classify (features : FeatureVec)
    (calibration : Option Calibration) : ClassifyResult :=
  match calibration with
  | none => ⟨true, 0⟩
  | some cal =>
    match cal.profiles with
    | none => ⟨true, 0⟩
    | some profs =>
      match profs.shooting with
      | none => ⟨true, 0⟩
      | some shootProf =>
        let stage1Hit : Bool :=
          if 0 < shootProf.dipRatio.std then
            let maxShotDipRatio := shootProf.dipRatio.mean + 2 * shootProf.dipRatio.std
            [profs.walking, profs.running, profs.dribbling].any (fun po =>
              match po with
              | none => false
              | some prof =>
                decide (prof.dipRatio.mean - prof.dipRatio.std ≤ features.dipRatio) &&
                decide (features.dipRatio ≤ prof.dipRatio.mean + prof.dipRatio.std) &&
                decide (maxShotDipRatio < features.dipRatio))
          else false
        if stage1Hit then ⟨false, 0.9⟩
        else
          let shootDist := distTo features (some shootProf)
          let walkDist := distTo features profs.walking
          let runDist := distTo features profs.running
          let dribbleDist := distTo features profs.dribbling
          let minNoiseDist := minInf (minInf walkDist runDist) dribbleDist
          let margin : ℚ := 0.5
          if gtInfPlus shootDist minNoiseDist margin then
            ⟨false, match shootDist, minNoiseDist with
              | some a, some b => min 1 ((a - b) / 3)
              | none, some _ => 1
              | _, _ => 0⟩
          else
            ⟨true, match minNoiseDist, shootDist with
              | some a, some b => min 1 ((a - b + margin) / 3)
              | none, some _ => 1
              | _, _ => 0⟩

/-! ### ShotDetector -/

def PEAK_SIGMA : ℚ := 2.5
def DIP_SIGMA : ℚ := 1.5
def RECOVERY_SIGMA : ℚ := 1.0
def PEAK_TO_DIP_SIGMA : ℚ := 5.0
def MIN_PEAK_ABS : ℚ := 14
def MAX_DIP_ABS : ℚ := 6
def MIN_RISE_FROM_DIP : ℚ := 5
def MIN_PEAK_TO_DIP_ABS : ℚ := 8
def BASELINE_WINDOW : ℕ := 80
def BASELINE_OFFSET : ℕ := 20
def DIP_SEARCH_WINDOW : ℕ := 35
def RECOVERY_SEARCH_WINDOW : ℕ := 30
def SCAN_START_OFFSET : ℕ := 90
def SCAN_END_OFFSET : ℕ := 50
def MIN_SHOT_INTERVAL_MS : ℚ := 1200
def MIN_SHOT_SAMPLES : ℕ := 60
def MAX_EFFECTIVE_STD : ℚ := 1.5

structure Baseline where
  mean : ℚ
  std : ℚ
deriving DecidableEq, Repr

/-- ShotDetector._baseline(aMags, endIdx): stats over
aMags.slice(max(0, endIdx - 80), endIdx), null when fewer than 10 samples. -/
def baselineStats (aMags : List ℚ) (endIdx : ℕ) : Option Baseline :=
  let start := endIdx - BASELINE_WINDOW
  let slice := (aMags.take endIdx).drop start
  if slice.length < 10 then none
  else some ⟨meanOf slice, sqrtQ (varOf slice)⟩

/-- The running-argmin loop: if (aMags[j] < aMags[best]) best = j. -/
def argminList (aMags : List ℚ) (init : ℕ) (js : List ℕ) : ℕ :=
  js.foldl (fun best j => if amag aMags j < amag aMags best then j else best) init

/-- The running-argmax loop: if (aMags[j] > aMags[best]) best = j. -/
def argmaxList (aMags : List ℚ) (init : ℕ) (js : List ℕ) : ℕ :=
  js.foldl (fun best j => if amag aMags best < amag aMags j then j else best) init

/-- dipIdx: index of the first minimum of aMags over [i+1, min(len, i+35)),
initialised at i+1 as in the source. -/
def dipIdxOf (aMags : List ℚ) (i len : ℕ) : ℕ :=
  let dipEnd := min len (i + DIP_SEARCH_WINDOW)
  argminList aMags (i + 1) (List.range' (i + 1) (dipEnd - (i + 1)))

/-- recIdx: index of the first maximum of aMags over
[dipIdx+1, min(len, dipIdx+30)), initialised at dipIdx+1. -/
def recIdxOf (aMags : List ℚ) (dipIdx len : ℕ) : ℕ :=
  let recEnd := min len (dipIdx + RECOVERY_SEARCH_WINDOW)
  argmaxList aMags (dipIdx + 1) (List.range' (dipIdx + 1) (recEnd - (dipIdx + 1)))

/-- A shot record emitted by batch detectAll. -/
structure BatchShot where
  idx : ℕ
  mag : ℚ
  dipMag : ℚ
  recoveryMag : ℚ
  range : ℚ
  t : ℚ
  tRel : ℚ
  consensus : Option ConsensusResult
  calibResult : Option ClassifyResult
deriving DecidableEq, Repr

/-- A shot record emitted by streaming processSample (idx is absolute). -/
structure StreamShot where
  idx : ℕ
  bufferIdx : ℕ
  mag : ℚ
  dipMag : ℚ
  recoveryMag : ℚ
  range : ℚ
  t : ℚ
  consensus : Option ConsensusResult
  calibResult : Option ClassifyResult
deriving DecidableEq, Repr

/-- class ShotDetector state and configuration.  lastShotIdx = none models
the initial -Infinity (the separation gate is then vacuously passed). -/
structure ShotDetector where
  lastShotTime : ℚ
  lastShotIdx : Option ℕ
  calibration : Option Calibration
  useConsensus : Bool
  consensusOpts : ConsensusOpts
deriving DecidableEq, Repr

/-- new ShotDetector() -/
def ShotDetector.init : ShotDetector := ⟨0, none, none, false, ConsensusOpts.empty⟩

/-- imuData[i].t || imuData[i].tRel || 0 -/
def sampleTimeOf (s : Sample) : ℚ :=
  if s.t ≠ 0 then s.t else if s.tRel ≠ 0 then s.tRel else 0

/-- Loop state of detectAll: accumulated shots plus lastIdx/lastTime
(lastIdx = none models the initial -Infinity). -/
structure BatchState where
  shots : List BatchShot
  lastIdx : Option ℕ
  lastTime : ℚ
deriving DecidableEq, Repr

/-- Gate 1 failure: aMags[i] <= aMags[i-1] || aMags[i] < aMags[i+1]. -/
def localMaxFail (aMags : List ℚ) (i : ℕ) : Bool :=
  decide (amag aMags i ≤ amag aMags (i - 1)) || decide (amag aMags i < amag aMags (i + 1))

/-- Gate 2 failure: aMags[i] < mean + 2.5 * effStd || aMags[i] < 14, with
effStd = min(std, MAX_EFFECTIVE_STD). -/
def peakFail (aMags : List ℚ) (i : ℕ) (base : Baseline) : Bool :=
  decide (amag aMags i < base.mean + PEAK_SIGMA * min base.std MAX_EFFECTIVE_STD) ||
  decide (amag aMags i < MIN_PEAK_ABS)

/-- Separation-gate failure: idx - lastIdx < 60 (false when lastIdx is the
initial -Infinity). -/
def sepFail (lastIdx : Option ℕ) (idx : ℕ) : Bool :=
  match lastIdx with
  | some k => decide (idx < k + MIN_SHOT_SAMPLES)
  | none => false

/-- Time-gate failure: sampleTime - lastTime < 1200 && lastTime > 0. -/
def timeFail (sampleTime lastTime : ℚ) : Bool :=
  decide (sampleTime - lastTime < MIN_SHOT_INTERVAL_MS) && decide (0 < lastTime)

/-- Dip-gate failure: dip > mean - 1.5 * std (unclamped std) || dip > 6. -/
def dipFail (aMags : List ℚ) (dipIdx : ℕ) (base : Baseline) : Bool :=
  decide (base.mean - DIP_SIGMA * base.std < amag aMags dipIdx) ||
  decide (MAX_DIP_ABS < amag aMags dipIdx)

/-- Range-gate failure: peakToDipRange < max(8, effStd * 5). -/
def rangeFail (aMags : List ℚ) (i dipIdx : ℕ) (base : Baseline) : Bool :=
  decide (amag aMags i - amag aMags dipIdx <
    max MIN_PEAK_TO_DIP_ABS (min base.std MAX_EFFECTIVE_STD * PEAK_TO_DIP_SIGMA))

/-- Recovery-gate failure: recovery < mean + 1.0 * effStd || rise < 5. -/
def recFail (aMags : List ℚ) (dipIdx recIdx : ℕ) (base : Baseline) : Bool :=
  decide (amag aMags recIdx < base.mean + RECOVERY_SIGMA * min base.std MAX_EFFECTIVE_STD) ||
  decide (amag aMags recIdx - amag aMags dipIdx < MIN_RISE_FROM_DIP)

/-- The optional consensus evaluation of a candidate. -/
def consensusOf (d : ShotDetector) (aMags : List ℚ) (i dipIdx recIdx : ℕ) :
    Option ConsensusResult :=
  if d.useConsensus then
    some (ShotDetectorConsensus.evaluate aMags i dipIdx recIdx d.consensusOpts)
  else none

/-- if (!consensus.isShot) continue -/
def consensusReject (c : Option ConsensusResult) : Bool :=
  match c with
  | some c => !c.isShot
  | none => false

/-- The optional calibration post-filter result of a candidate (null when no
calibration is set or the feature extraction fails). -/
def calibResultOf (d : ShotDetector) (data : List Sample) (i dipIdx recIdx : ℕ)
    (baseMean : ℚ) : Option ClassifyResult :=
  match d.calibration with
  | some cal =>
    match MotionCalibrator.extractFeatures data i dipIdx recIdx baseMean with
    | some fv => some (MotionCalibrator.classify fv (some cal))
    | none => none
  | none => none

/-- if (calibResult && !calibResult.isShot) continue -/
def calibReject (c : Option ClassifyResult) : Bool :=
  match c with
  | some c => !c.isShot
  | none => false

/-- The record pushed by detectAll for an accepted candidate. -/
def mkBatchShot (imuData : List Sample) (aMags : List ℚ) (i dipIdx recIdx : ℕ)
    (consensus : Option ConsensusResult) (calibResult : Option ClassifyResult) :
    BatchShot :=
  { idx := i, mag := amag aMags i, dipMag := amag aMags dipIdx,
    recoveryMag := amag aMags recIdx,
    range := amag aMags i - amag aMags dipIdx,
    t := (imuData.getD i default).t, tRel := (imuData.getD i default).tRel,
    consensus := consensus, calibResult := calibResult }

/-- One iteration of the detectAll scan loop at candidate index i; every
`continue` of the source becomes an identity on the state.  The gate
conditions are the named *Fail predicates above, applied in source order. -/
def detectStep (d : ShotDetector) (imuData : List Sample) (aMags : List ℚ)
    (st : BatchState) (i : ℕ) : BatchState :=
  if localMaxFail aMags i then st
  else
    match baselineStats aMags (i - BASELINE_OFFSET) with
    | none => st
    | some base =>
      if peakFail aMags i base then st
      else if sepFail st.lastIdx i then st
      else if timeFail (sampleTimeOf (imuData.getD i default)) st.lastTime then st
      else if dipFail aMags (dipIdxOf aMags i aMags.length) base then st
      else if rangeFail aMags i (dipIdxOf aMags i aMags.length) base then st
      else if min aMags.length (dipIdxOf aMags i aMags.length + RECOVERY_SEARCH_WINDOW) ≤
              dipIdxOf aMags i aMags.length + 1 then st
      else if recFail aMags (dipIdxOf aMags i aMags.length)
              (recIdxOf aMags (dipIdxOf aMags i aMags.length) aMags.length) base then st
      else if consensusReject (consensusOf d aMags i (dipIdxOf aMags i aMags.length)
              (recIdxOf aMags (dipIdxOf aMags i aMags.length) aMags.length)) then st
      else if calibReject (calibResultOf d imuData i (dipIdxOf aMags i aMags.length)
              (recIdxOf aMags (dipIdxOf aMags i aMags.length) aMags.length) base.mean) then st
      else
        { shots := st.shots ++
            [mkBatchShot imuData aMags i (dipIdxOf aMags i aMags.length)
              (recIdxOf aMags (dipIdxOf aMags i aMags.length) aMags.length)
              (consensusOf d aMags i (dipIdxOf aMags i aMags.length)
                (recIdxOf aMags (dipIdxOf aMags i aMags.length) aMags.length))
              (calibResultOf d imuData i (dipIdxOf aMags i aMags.length)
                (recIdxOf aMags (dipIdxOf aMags i aMags.length) aMags.length) base.mean)],
          lastIdx := some i,
          lastTime := sampleTimeOf (imuData.getD i default) }

/-- ShotDetector.detectAll: scan candidate indices
[BASELINE_WINDOW + BASELINE_OFFSET, length - 35 - 30) in order. -/
def ShotDetector.detectAll (d : ShotDetector) (imuData : List Sample) : List BatchShot :=
  ((List.range' (BASELINE_WINDOW + BASELINE_OFFSET)
      ((imuData.map Sample.aMag).length - DIP_SEARCH_WINDOW - RECOVERY_SEARCH_WINDOW -
        (BASELINE_WINDOW + BASELINE_OFFSET))).foldl
    (detectStep d imuData (imuData.map Sample.aMag)) ⟨[], none, 0⟩).shots

/-- The record returned by _checkCandidate for an accepted candidate. -/
def mkStreamShot (data : List Sample) (aMags : List ℚ) (absIdx i dipIdx recIdx : ℕ)
    (currentTime : ℚ) (consensus : Option ConsensusResult)
    (calibResult : Option ClassifyResult) : StreamShot :=
  { idx := absIdx, bufferIdx := i, mag := amag aMags i,
    dipMag := amag aMags dipIdx, recoveryMag := amag aMags recIdx,
    range := amag aMags i - amag aMags dipIdx, t := currentTime,
    consensus := consensus, calibResult := calibResult }

/-- ShotDetector._checkCandidate in streaming mode.  The source mutates
lastShotTime/lastShotIdx just before returning the record; here the record
is returned and processSample applies that same state update, which is
equivalent since a call that returns null changes nothing. -/
def ShotDetector.checkCandidate (d : ShotDetector) (aMags : List ℚ) (len : ℕ)
    (currentTime : ℚ) (buffer : IMUBuffer) (i : ℕ) : Option StreamShot :=
  if localMaxFail aMags i then none
  else
    match baselineStats aMags (i - BASELINE_OFFSET) with
    | none => none
    | some base =>
      if peakFail aMags i base then none
      else if sepFail d.lastShotIdx (buffer.absIndex i) then none
      else if timeFail currentTime d.lastShotTime then none
      else if min len (i + DIP_SEARCH_WINDOW) ≤ i + 1 then none
      else if dipFail aMags (dipIdxOf aMags i len) base then none
      else if rangeFail aMags i (dipIdxOf aMags i len) base then none
      else if min len (dipIdxOf aMags i len + RECOVERY_SEARCH_WINDOW) ≤
              dipIdxOf aMags i len + 1 then none
      else if recFail aMags (dipIdxOf aMags i len)
              (recIdxOf aMags (dipIdxOf aMags i len) len) base then none
      else if consensusReject (consensusOf d aMags i (dipIdxOf aMags i len)
              (recIdxOf aMags (dipIdxOf aMags i len) len)) then none
      else if calibReject (calibResultOf d buffer.data i (dipIdxOf aMags i len)
              (recIdxOf aMags (dipIdxOf aMags i len) len) base.mean) then none
      else
        some (mkStreamShot buffer.data aMags (buffer.absIndex i) i
          (dipIdxOf aMags i len) (recIdxOf aMags (dipIdxOf aMags i len) len)
          currentTime
          (consensusOf d aMags i (dipIdxOf aMags i len)
            (recIdxOf aMags (dipIdxOf aMags i len) len))
          (calibResultOf d buffer.data i (dipIdxOf aMags i len)
            (recIdxOf aMags (dipIdxOf aMags i len) len) base.mean))

/-- First successful candidate of the scan loop (the source returns from
inside the for loop). -/
def firstHit {α : Type} (f : ℕ → Option α) : List ℕ → Option α
  | [] => none
  | i :: is =>
    match f i with
    | some r => some r
    | none => firstHit f is

/-- ShotDetector.processSample: live-mode scan over the buffer look-back
window; returns the shot (if any) together with the updated detector. -/
def ShotDetector.processSample (d : ShotDetector) (buffer : IMUBuffer)
    (currentTime : ℚ) : Option StreamShot × ShotDetector :=
  if buffer.data.length < SCAN_START_OFFSET + BASELINE_WINDOW + BASELINE_OFFSET then
    (none, d)
  else
    match firstHit
        (d.checkCandidate (buffer.data.map Sample.aMag) buffer.data.length
          currentTime buffer)
        (List.range' (buffer.data.length - SCAN_START_OFFSET)
          (buffer.data.length - SCAN_END_OFFSET -
            (buffer.data.length - SCAN_START_OFFSET))) with
    | some sh => (some sh, { d with lastShotTime := currentTime,
                                    lastShotIdx := some sh.idx })
    | none => (none, d)

/-! ### Concrete signals used by witnesses and counterexamples -/

/-- Build samples from a list of aMag values; sample i gets timestamps
t = tRel = 10 * (i + 1) and zero gyro components. -/
def samplesOf (vals : List ℚ) : List Sample :=
  vals.enum.map (fun p => ⟨10 * ((p.1 : ℚ) + 1), 10 * ((p.1 : ℚ) + 1), p.2, 0, 0, 0⟩)

/-- A noisy baseline block: 80 samples alternating 9.75 / 14.75, so the
candidate baseline has mean 12.25 and standard deviation exactly 2.5. -/
def noisyBase : List ℚ :=
  (List.range 80).map (fun i => if i % 2 = 0 then (9.75 : ℚ) else 14.75)

/-- 166-sample signal with one clean shot signature at index 100:
peak 16, dip to 2 at index 105, recovery to 15 at index 109, over a
baseline of mean 12.25 and std 2.5.  The batch scan visits exactly the
index 100. -/
def accVals : List ℚ :=
  noisyBase ++ List.replicate 20 12 ++
  [16, 10, 8, 6, 4, 2, 5, 9, 13, 15] ++ List.replicate 56 12

def accSamples : List Sample := samplesOf accVals

/-- The same signature with a two-sample plateau at the peak
(aMags[100] = aMags[101] = 16): accepted by the detector although the peak
is not strictly greater than its successor. -/
def plateauVals : List ℚ :=
  noisyBase ++ List.replicate 20 12 ++
  [16, 16, 10, 8, 6, 4, 2, 5, 9, 13, 15] ++ List.replicate 55 12

def plateauSamples : List Sample := samplesOf plateauVals

/-- Heavy-motion signal whose candidate baseline (indices 0..79, alternating
10 / 15) has mean 12.5 and std exactly 2.5, with a 16-peak at index 100
that sits strictly below mean + 2.5 * effStd = 16.25. -/
def motionVals : List ℚ :=
  (List.range 80).map (fun i => if i % 2 = 0 then (10 : ℚ) else 15) ++
  List.replicate 20 12 ++ [16] ++ List.replicate 65 12

def motionSamples : List Sample := samplesOf motionVals

/-- 190-sample stream: accVals padded so that the live-mode look-back scan
[len-90, len-50) starts at index 100. -/
def streamVals : List ℚ := accVals ++ List.replicate 24 12

/-- A live buffer holding the 190-sample stream, with default capacity
parameters and no compaction yet. -/
def streamBuf : IMUBuffer := ⟨3000, 1000, samplesOf streamVals, 190, 0⟩

/-- A detector that already accepted a shot at absolute index 30. -/
def primedDetector : ShotDetector := ⟨0, some 30, none, false, ConsensusOpts.empty⟩

/-! ### Derived specification vocabulary -/

/-- The aMag values searched by the dip phase: indices
[i+1, min(len, i + DIP_SEARCH_WINDOW)). -/
def dipWindow (aMags : List ℚ) (i len : ℕ) : List ℚ :=
  (List.range' (i + 1) (min len (i + DIP_SEARCH_WINDOW) - (i + 1))).map (amag aMags)

/-- The dip-gate facts guaranteed for every shot emitted by detectAll:
its dipMag is the minimum of the forward search window, it clears both the
sigma dip threshold (unclamped std) and the absolute dip ceiling, and the
peak-to-dip range clears max(MIN_PEAK_TO_DIP_ABS, effStd * 5). -/
def batchDipOk (imuData : List Sample) (sh : BatchShot) : Prop :=
  ∃ base : Baseline,
    baselineStats (imuData.map Sample.aMag) (sh.idx - BASELINE_OFFSET) = some base ∧
    isMinOf (dipWindow (imuData.map Sample.aMag) sh.idx
      (imuData.map Sample.aMag).length) sh.dipMag ∧
    sh.dipMag ≤ base.mean - DIP_SIGMA * base.std ∧
    sh.dipMag ≤ MAX_DIP_ABS ∧
    max MIN_PEAK_TO_DIP_ABS (min base.std MAX_EFFECTIVE_STD * PEAK_TO_DIP_SIGMA) ≤
      sh.mag - sh.dipMag

/-- The same dip-gate facts for a streaming candidate accepted by
checkCandidate (indices are buffer-relative). -/
def streamDipOk (aMags : List ℚ) (len : ℕ) (sh : StreamShot) : Prop :=
  ∃ base : Baseline,
    baselineStats aMags (sh.bufferIdx - BASELINE_OFFSET) = some base ∧
    isMinOf (dipWindow aMags sh.bufferIdx len) sh.dipMag ∧
    sh.dipMag ≤ base.mean - DIP_SIGMA * base.std ∧
    sh.dipMag ≤ MAX_DIP_ABS ∧
    max MIN_PEAK_TO_DIP_ABS (min base.std MAX_EFFECTIVE_STD * PEAK_TO_DIP_SIGMA) ≤
      sh.mag - sh.dipMag

/-- Streaming separation contract: a shot returned by processSample is at
least MIN_SHOT_SAMPLES absolute indices past the previously recorded shot,
and the detector records the new absolute index. -/
def streamSepOk (dBefore dAfter : ShotDetector) (sh : StreamShot) : Prop :=
  (∀ k, dBefore.lastShotIdx = some k → k + MIN_SHOT_SAMPLES ≤ sh.idx) ∧
  dAfter.lastShotIdx = some sh.idx

/-- The buffer obtained by pushing a sample sequence into a fresh buffer. -/
def reachedBuffer (M S : ℕ) (ss : List Sample) : IMUBuffer :=
  (IMUBuffer.init M S).pushAll ss

/-- An all-zero feature vector, used to witness fail-open classification. -/
def zeroFeatures : FeatureVec := ⟨0, 0, 0, 0, 0, 0, 0, 0, 0, 0, 0, 0⟩

/-- A 19-sample movement window (ten 0s, nine 2s); pushing one more 2 makes
a full 20-sample window of mean 1 and variance exactly 1. -/
def calmWindow : List ℚ := List.replicate 10 0 ++ List.replicate 9 2

/-! ### Generic lemmas -/

theorem foldlInv {α β : Type} (f : β → α → β) (P : β → Prop) :
    ∀ (l : List α) (b : β), (∀ x ∈ l, ∀ s, P s → P (f s x)) → P b → P (l.foldl f b) := by
  intro l
  induction l with
  | nil => intro b _ hb; exact hb
  | cons x xs ih =>
    intro b hstep hb
    exact ih (f b x) (fun y hy s hs => hstep y (List.mem_cons_of_mem x hy) s hs)
      (hstep x (List.mem_cons_self x xs) b hb)

theorem argminList_cons (aMags : List ℚ) (init j : ℕ) (rest : List ℕ) :
    argminList aMags init (j :: rest) =
    argminList aMags (if amag aMags j < amag aMags init then j else init) rest := rfl

theorem argminList_le_init (aMags : List ℚ) :
    ∀ (js : List ℕ) (init : ℕ),
      amag aMags (argminList aMags init js) ≤ amag aMags init := by
  intro js
  induction js with
  | nil => intro init; exact le_refl _
  | cons j rest ih =>
    intro init
    rw [argminList_cons]
    by_cases h : amag aMags j < amag aMags init
    · simp only [h, if_pos]
      exact le_trans (ih j) (le_of_lt h)
    · simp only [h, if_neg, not_false_iff]
      exact ih init

theorem argminList_le_mem (aMags : List ℚ) :
    ∀ (js : List ℕ) (init : ℕ) (j : ℕ), j ∈ js →
      amag aMags (argminList aMags init js) ≤ amag aMags j := by
  intro js
  induction js with
  | nil => intro init j hj; cases hj
  | cons x rest ih =>
    intro init j hj
    rw [argminList_cons]
    rcases List.mem_cons.mp hj with hx | hrest
    · subst hx
      by_cases h : amag aMags j < amag aMags init
      · simp only [h, if_pos]
        exact argminList_le_init aMags rest j
      · simp only [h, if_neg, not_false_iff]
        exact le_trans (argminList_le_init aMags rest init) (le_of_not_lt h)
    · by_cases h : amag aMags x < amag aMags init
      · simp only [h, if_pos]; exact ih x j hrest
      · simp only [h, if_neg, not_false_iff]; exact ih init j hrest

theorem argminList_mem (aMags : List ℚ) :
    ∀ (js : List ℕ) (init : ℕ),
      argminList aMags init js = init ∨ argminList aMags init js ∈ js := by
  intro js
  induction js with
  | nil => intro init; exact Or.inl rfl
  | cons x rest ih =>
    intro init
    rw [argminList_cons]
    by_cases h : amag aMags x < amag aMags init
    · simp only [h, if_pos]
      rcases ih x with h1 | h1
      · rw [h1]; exact Or.inr (List.mem_cons_self x rest)
      · exact Or.inr (List.mem_cons_of_mem x h1)
    · simp only [h, if_neg, not_false_iff]
      rcases ih init with h1 | h1
      · exact Or.inl h1
      · exact Or.inr (List.mem_cons_of_mem x h1)

theorem dipValue_isMin (aMags : List ℚ) (i len : ℕ)
    (h : i + 1 < min len (i + DIP_SEARCH_WINDOW)) :
    isMinOf (dipWindow aMags i len) (amag aMags (dipIdxOf aMags i len)) := by
  constructor
  · unfold dipWindow dipIdxOf
    have hmem : i + 1 ∈ List.range' (i + 1) (min len (i + DIP_SEARCH_WINDOW) - (i + 1)) := by
      rw [List.mem_range'_1]
      omega
    rcases argminList_mem aMags
        (List.range' (i + 1) (min len (i + DIP_SEARCH_WINDOW) - (i + 1))) (i + 1) with h1 | h1
    · rw [h1]; exact List.mem_map_of_mem _ hmem
    · exact List.mem_map_of_mem _ h1
  · intro x hx
    obtain ⟨j, hj, rfl⟩ := List.mem_map.mp hx
    exact argminList_le_mem aMags _ (i + 1) j hj

theorem detectStep_spec (d : ShotDetector) (imuData : List Sample) (aMags : List ℚ)
    (st : BatchState) (i : ℕ) :
    detectStep d imuData aMags st i = st ∨
    ∃ (base : Baseline) (sh : BatchShot),
      detectStep d imuData aMags st i =
        { shots := st.shots ++ [sh], lastIdx := some i,
          lastTime := sampleTimeOf (imuData.getD i default) } ∧
      baselineStats aMags (i - BASELINE_OFFSET) = some base ∧
      sh.idx = i ∧ sh.mag = amag aMags i ∧
      sh.dipMag = amag aMags (dipIdxOf aMags i aMags.length) ∧
      amag aMags (i - 1) < amag aMags i ∧
      amag aMags (i + 1) ≤ amag aMags i ∧
      base.mean + PEAK_SIGMA * min base.std MAX_EFFECTIVE_STD ≤ amag aMags i ∧
      MIN_PEAK_ABS ≤ amag aMags i ∧
      (∀ k, st.lastIdx = some k → k + MIN_SHOT_SAMPLES ≤ i) ∧
      sh.dipMag ≤ base.mean - DIP_SIGMA * base.std ∧
      sh.dipMag ≤ MAX_DIP_ABS ∧
      max MIN_PEAK_TO_DIP_ABS (min base.std MAX_EFFECTIVE_STD * PEAK_TO_DIP_SIGMA) ≤
        sh.mag - sh.dipMag := by
  unfold detectStep
  by_cases h1 : localMaxFail aMags i = true
  · rw [if_pos h1]; exact Or.inl rfl
  · rw [if_neg h1]
    simp only [localMaxFail, Bool.or_eq_true, decide_eq_true_eq, not_or, not_le, not_lt] at h1
    obtain ⟨hprev, hnext⟩ := h1
    cases hbase : baselineStats aMags (i - BASELINE_OFFSET) with
    | none => exact Or.inl rfl
    | some base =>
      dsimp only
      by_cases h3 : peakFail aMags i base = true
      · rw [if_pos h3]; exact Or.inl rfl
      · rw [if_neg h3]
        simp only [peakFail, Bool.or_eq_true, decide_eq_true_eq, not_or, not_lt] at h3
        obtain ⟨hpk, habs⟩ := h3
        by_cases h4 : sepFail st.lastIdx i = true
        · rw [if_pos h4]; exact Or.inl rfl
        · rw [if_neg h4]
          by_cases h5 : timeFail (sampleTimeOf (imuData.getD i default)) st.lastTime = true
          · rw [if_pos h5]; exact Or.inl rfl
          · rw [if_neg h5]
            by_cases h6 : dipFail aMags (dipIdxOf aMags i aMags.length) base = true
            · rw [if_pos h6]; exact Or.inl rfl
            · rw [if_neg h6]
              simp only [dipFail, Bool.or_eq_true, decide_eq_true_eq, not_or, not_lt] at h6
              obtain ⟨hdip1, hdip2⟩ := h6
              by_cases h7 : rangeFail aMags i (dipIdxOf aMags i aMags.length) base = true
              · rw [if_pos h7]; exact Or.inl rfl
              · rw [if_neg h7]
                simp only [rangeFail, decide_eq_true_eq, not_lt] at h7
                by_cases h8 : min aMags.length
                    (dipIdxOf aMags i aMags.length + RECOVERY_SEARCH_WINDOW) ≤
                    dipIdxOf aMags i aMags.length + 1
                · rw [if_pos h8]; exact Or.inl rfl
                · rw [if_neg h8]
                  by_cases h9 : recFail aMags (dipIdxOf aMags i aMags.length)
                      (recIdxOf aMags (dipIdxOf aMags i aMags.length) aMags.length) base = true
                  · rw [if_pos h9]; exact Or.inl rfl
                  · rw [if_neg h9]
                    by_cases h10 : consensusReject (consensusOf d aMags i
                        (dipIdxOf aMags i aMags.length)
                        (recIdxOf aMags (dipIdxOf aMags i aMags.length) aMags.length)) = true
                    · rw [if_pos h10]; exact Or.inl rfl
                    · rw [if_neg h10]
                      by_cases h11 : calibReject (calibResultOf d imuData i
                          (dipIdxOf aMags i aMags.length)
                          (recIdxOf aMags (dipIdxOf aMags i aMags.length) aMags.length)
                          base.mean) = true
                      · rw [if_pos h11]; exact Or.inl rfl
                      · rw [if_neg h11]
                        refine Or.inr ⟨base, _, rfl, rfl, rfl, rfl, rfl, hprev, hnext,
                          hpk, habs, ?_, hdip1, hdip2, h7⟩
                        intro k hk
                        rw [hk] at h4
                        simp only [sepFail, decide_eq_true_eq] at h4
                        omega

theorem checkCandidate_spec (d : ShotDetector) (aMags : List ℚ) (len : ℕ)
    (currentTime : ℚ) (buffer : IMUBuffer) (i : ℕ) (sh : StreamShot)
    (h : d.checkCandidate aMags len currentTime buffer i = some sh) :
    sh.idx = buffer.absIndex i ∧ sh.bufferIdx = i ∧ sh.mag = amag aMags i ∧
    sh.dipMag = amag aMags (dipIdxOf aMags i len) ∧
    amag aMags (i - 1) < amag aMags i ∧
    amag aMags (i + 1) ≤ amag aMags i ∧
    i + 1 < min len (i + DIP_SEARCH_WINDOW) ∧
    (∀ k, d.lastShotIdx = some k → k + MIN_SHOT_SAMPLES ≤ buffer.absIndex i) ∧
    ∃ base : Baseline,
      baselineStats aMags (i - BASELINE_OFFSET) = some base ∧
      base.mean + PEAK_SIGMA * min base.std MAX_EFFECTIVE_STD ≤ amag aMags i ∧
      MIN_PEAK_ABS ≤ amag aMags i ∧
      sh.dipMag ≤ base.mean - DIP_SIGMA * base.std ∧
      sh.dipMag ≤ MAX_DIP_ABS ∧
      max MIN_PEAK_TO_DIP_ABS (min base.std MAX_EFFECTIVE_STD * PEAK_TO_DIP_SIGMA) ≤
        sh.mag - sh.dipMag := by
  unfold ShotDetector.checkCandidate at h
  by_cases h1 : localMaxFail aMags i = true
  · rw [if_pos h1] at h; exact Option.noConfusion h
  · rw [if_neg h1] at h
    simp only [localMaxFail, Bool.or_eq_true, decide_eq_true_eq, not_or, not_le, not_lt] at h1
    obtain ⟨hprev, hnext⟩ := h1
    revert h
    cases hbase : baselineStats aMags (i - BASELINE_OFFSET) with
    | none => intro h; exact Option.noConfusion h
    | some base =>
      intro h
      dsimp only at h
      by_cases h3 : peakFail aMags i base = true
      · rw [if_pos h3] at h; exact Option.noConfusion h
      · rw [if_neg h3] at h
        simp only [peakFail, Bool.or_eq_true, decide_eq_true_eq, not_or, not_lt] at h3
        obtain ⟨hpk, habs⟩ := h3
        by_cases h4 : sepFail d.lastShotIdx (buffer.absIndex i) = true
        · rw [if_pos h4] at h; exact Option.noConfusion h
        · rw [if_neg h4] at h
          by_cases h5 : timeFail currentTime d.lastShotTime = true
          · rw [if_pos h5] at h; exact Option.noConfusion h
          · rw [if_neg h5] at h
            by_cases h5b : min len (i + DIP_SEARCH_WINDOW) ≤ i + 1
            · rw [if_pos h5b] at h; exact Option.noConfusion h
            · rw [if_neg h5b] at h
              by_cases h6 : dipFail aMags (dipIdxOf aMags i len) base = true
              · rw [if_pos h6] at h; exact Option.noConfusion h
              · rw [if_neg h6] at h
                simp only [dipFail, Bool.or_eq_true, decide_eq_true_eq, not_or, not_lt] at h6
                obtain ⟨hdip1, hdip2⟩ := h6
                by_cases h7 : rangeFail aMags i (dipIdxOf aMags i len) base = true
                · rw [if_pos h7] at h; exact Option.noConfusion h
                · rw [if_neg h7] at h
                  simp only [rangeFail, decide_eq_true_eq, not_lt] at h7
                  by_cases h8 : min len (dipIdxOf aMags i len + RECOVERY_SEARCH_WINDOW) ≤
                      dipIdxOf aMags i len + 1
                  · rw [if_pos h8] at h; exact Option.noConfusion h
                  · rw [if_neg h8] at h
                    by_cases h9 : recFail aMags (dipIdxOf aMags i len)
                        (recIdxOf aMags (dipIdxOf aMags i len) len) base = true
                    · rw [if_pos h9] at h; exact Option.noConfusion h
                    · rw [if_neg h9] at h
                      by_cases h10 : consensusReject (consensusOf d aMags i
                          (dipIdxOf aMags i len)
                          (recIdxOf aMags (dipIdxOf aMags i len) len)) = true
                      · rw [if_pos h10] at h; exact Option.noConfusion h
                      · rw [if_neg h10] at h
                        by_cases h11 : calibReject (calibResultOf d buffer.data i
                            (dipIdxOf aMags i len)
                            (recIdxOf aMags (dipIdxOf aMags i len) len) base.mean) = true
                        · rw [if_pos h11] at h; exact Option.noConfusion h
                        · rw [if_neg h11] at h
                          obtain rfl := (Option.some.inj h).symm
                          refine ⟨rfl, rfl, rfl, rfl, hprev, hnext, not_le.mp h5b, ?_,
                            base, rfl, hpk, habs, hdip1, hdip2, h7⟩
                          intro k hk
                          rw [hk] at h4
                          simp only [sepFail, decide_eq_true_eq] at h4
                          omega

theorem firstHit_some {α : Type} (f : ℕ → Option α) :
    ∀ (l : List ℕ) (r : α), firstHit f l = some r → ∃ i ∈ l, f i = some r := by
  intro l
  induction l with
  | nil => intro r h; exact Option.noConfusion h
  | cons i is ih =>
    intro r h
    unfold firstHit at h
    cases hfi : f i with
    | some r0 =>
      rw [hfi] at h
      exact ⟨i, List.mem_cons_self i is, hfi.trans h⟩
    | none =>
      rw [hfi] at h
      obtain ⟨j, hj, hfj⟩ := ih r h
      exact ⟨j, List.mem_cons_of_mem i hj, hfj⟩

/-- C3 (amended): in both batch and streaming mode an accepted candidate is
strictly greater than its predecessor and greater than or equal to its
successor (the source tests aMags[i] &lt;= aMags[i-1] || aMags[i] &lt; aMags[i+1]). -/
theorem c3_local_max_necessity :
    (∀ (d : ShotDetector) (imuData : List Sample),
      ∀ sh ∈ d.detectAll imuData,
        amag (imuData.map Sample.aMag) (sh.idx - 1) < amag (imuData.map Sample.aMag) sh.idx ∧
        amag (imuData.map Sample.aMag) (sh.idx + 1) ≤ amag (imuData.map Sample.aMag) sh.idx) ∧
    (∀ (d : ShotDetector) (aMags : List ℚ) (len : ℕ) (t : ℚ) (buffer : IMUBuffer) (i : ℕ)
      (sh : StreamShot), d.checkCandidate aMags len t buffer i = some sh →
        amag aMags (sh.bufferIdx - 1) < amag aMags sh.bufferIdx ∧
        amag aMags (sh.bufferIdx + 1) ≤ amag aMags sh.bufferIdx) := by
  constructor
  · intro d imuData
    have key := foldlInv (detectStep d imuData (imuData.map Sample.aMag))
      (fun st => ∀ sh ∈ st.shots,
        amag (imuData.map Sample.aMag) (sh.idx - 1) < amag (imuData.map Sample.aMag) sh.idx ∧
        amag (imuData.map Sample.aMag) (sh.idx + 1) ≤ amag (imuData.map Sample.aMag) sh.idx)
      (List.range' (BASELINE_WINDOW + BASELINE_OFFSET)
        ((imuData.map Sample.aMag).length - DIP_SEARCH_WINDOW - RECOVERY_SEARCH_WINDOW -
          (BASELINE_WINDOW + BASELINE_OFFSET)))
      ⟨[], none, 0⟩ ?_ ?_
    · exact fun sh hsh => key sh hsh
    · intro i _ st hP
      rcases detectStep_spec d imuData (imuData.map Sample.aMag) st i with he |
        ⟨base, sh', heq, _, hidx, _, _, hprev, hnext, _, _, _, _, _, _⟩
      · rw [he]; exact hP
      · rw [heq]
        intro sh hsh
        rcases List.mem_append.mp hsh with hold | hnew
        · exact hP sh hold
        · rw [List.mem_singleton] at hnew
          subst hnew
          rw [hidx]
          exact ⟨hprev, hnext⟩
    · intro sh hsh; exact absurd hsh (List.not_mem_nil sh)
  · intro d aMags len t buffer i sh h
    obtain ⟨_, hbuf, _, _, hprev, hnext, _, _, _⟩ := checkCandidate_spec d aMags len t buffer i sh h
    rw [hbuf]
    exact ⟨hprev, hnext⟩

/-- C1: in both batch mode (detectAll) and streaming mode (checkCandidate,
the embedding of _checkCandidate) a candidate peak is accepted only if the
minimum aMag within the 35-sample forward window satisfies
dip <= baseline.mean - 1.5 * std with the unclamped std AND dip <= 6, and
the peak-to-dip range satisfies range >= max(8, effStd * 5.0) with the
clamped effStd = min(std, 1.5); every emitted shot record carries exactly
that window minimum as its dipMag. -/
theorem c1_dip_gate :
    (∀ (d : ShotDetector) (imuData : List Sample),
      ∀ sh ∈ d.detectAll imuData, batchDipOk imuData sh) ∧
    (∀ (d : ShotDetector) (aMags : List ℚ) (len : ℕ) (t : ℚ) (buffer : IMUBuffer) (i : ℕ)
      (sh : StreamShot), d.checkCandidate aMags len t buffer i = some sh →
        streamDipOk aMags len sh) := by
  constructor
  · intro d imuData
    have key := foldlInv (detectStep d imuData (imuData.map Sample.aMag))
      (fun st => ∀ sh ∈ st.shots, batchDipOk imuData sh)
      (List.range' (BASELINE_WINDOW + BASELINE_OFFSET)
        ((imuData.map Sample.aMag).length - DIP_SEARCH_WINDOW - RECOVERY_SEARCH_WINDOW -
          (BASELINE_WINDOW + BASELINE_OFFSET)))
      ⟨[], none, 0⟩ ?_ ?_
    · exact fun sh hsh => key sh hsh
    · intro i hi st hP
      rcases detectStep_spec d imuData (imuData.map Sample.aMag) st i with he |
        ⟨base, sh', heq, hbase, hidx, hmag, hdipv, _, _, _, _, _, hd1, hd2, hrange⟩
      · rw [he]; exact hP
      · rw [heq]
        intro sh hsh
        rcases List.mem_append.mp hsh with hold | hnew
        · exact hP sh hold
        · rw [List.mem_singleton] at hnew
          subst hnew
          rw [List.mem_range'_1] at hi
          have hwin : i + 1 < min (imuData.map Sample.aMag).length (i + DIP_SEARCH_WINDOW) := by
            simp only [BASELINE_WINDOW, BASELINE_OFFSET, DIP_SEARCH_WINDOW,
              RECOVERY_SEARCH_WINDOW] at hi ⊢
            omega
          refine ⟨base, ?_, ?_, ?_, ?_, ?_⟩
          · rw [hidx]; exact hbase
          · rw [hidx, hdipv]
            exact dipValue_isMin (imuData.map Sample.aMag) i (imuData.map Sample.aMag).length hwin
          · exact hd1
          · exact hd2
          · exact hrange
    · intro sh hsh; exact absurd hsh (List.not_mem_nil sh)
  · intro d aMags len t buffer i sh h
    obtain ⟨_, hbuf, _, hdipv, _, _, hwin, _, base, hbase, _, _, hd1, hd2, hrange⟩ :=
      checkCandidate_spec d aMags len t buffer i sh h
    refine ⟨base, ?_, ?_, hd1, hd2, hrange⟩
    · rw [hbuf]; exact hbase
    · rw [hbuf, hdipv]
      exact dipValue_isMin aMags i len hwin

/-- C2: any two shots in a single detectAll run have peak indices at least
MIN_SHOT_SAMPLES = 60 apart (pairwise, regardless of how many qualifying
peaks lie between them), and in streaming mode a shot returned by
processSample is at least 60 absolute indices past lastShotIdx, which is
then updated to the new shot index, enforcing the gap across calls. -/
theorem c2_min_separation :
    (∀ (d : ShotDetector) (imuData : List Sample),
      List.Pairwise (fun a b => a.idx + MIN_SHOT_SAMPLES ≤ b.idx) (d.detectAll imuData)) ∧
    (∀ (d : ShotDetector) (buffer : IMUBuffer) (t : ℚ) (sh : StreamShot) (d' : ShotDetector),
      d.processSample buffer t = (some sh, d') → streamSepOk d d' sh) := by
  constructor
  · intro d imuData
    have key := foldlInv (detectStep d imuData (imuData.map Sample.aMag))
      (fun st => List.Pairwise (fun a b => a.idx + MIN_SHOT_SAMPLES ≤ b.idx) st.shots ∧
        ∀ sh ∈ st.shots, ∃ k, st.lastIdx = some k ∧ sh.idx ≤ k)
      (List.range' (BASELINE_WINDOW + BASELINE_OFFSET)
        ((imuData.map Sample.aMag).length - DIP_SEARCH_WINDOW - RECOVERY_SEARCH_WINDOW -
          (BASELINE_WINDOW + BASELINE_OFFSET)))
      ⟨[], none, 0⟩ ?_ ?_
    · exact key.1
    · intro i _ st hP
      rcases detectStep_spec d imuData (imuData.map Sample.aMag) st i with he |
        ⟨base, sh', heq, _, hidx, _, _, _, _, _, _, hsep, _, _, _⟩
      · rw [he]; exact hP
      · rw [heq]
        constructor
        · rw [List.pairwise_append]
          refine ⟨hP.1, List.pairwise_singleton _ _, ?_⟩
          intro a ha b hb
          rw [List.mem_singleton] at hb
          subst hb
          obtain ⟨k, hk, hak⟩ := hP.2 a ha
          have := hsep k hk
          rw [hidx]
          omega
        · intro sh hsh
          rcases List.mem_append.mp hsh with hold | hnew
          · obtain ⟨k, hk, hak⟩ := hP.2 sh hold
            have := hsep k hk
            exact ⟨i, rfl, by omega⟩
          · rw [List.mem_singleton] at hnew
            subst hnew
            exact ⟨i, rfl, le_of_eq hidx⟩
    · exact ⟨List.Pairwise.nil, fun sh hsh => absurd hsh (List.not_mem_nil sh)⟩
  · intro d buffer t sh d' h
    unfold ShotDetector.processSample at h
    by_cases hlen : buffer.data.length < SCAN_START_OFFSET + BASELINE_WINDOW + BASELINE_OFFSET
    · rw [if_pos hlen] at h
      exact absurd (congrArg Prod.fst h) (by simp)
    · rw [if_neg hlen] at h
      revert h
      cases hfh : firstHit
          (d.checkCandidate (buffer.data.map Sample.aMag) buffer.data.length t buffer)
          (List.range' (buffer.data.length - SCAN_START_OFFSET)
            (buffer.data.length - SCAN_END_OFFSET -
              (buffer.data.length - SCAN_START_OFFSET))) with
      | none =>
        intro h
        exact absurd (congrArg Prod.fst h) (by simp)
      | some sh0 =>
        intro h
        obtain ⟨i, _, hci⟩ := firstHit_some _ _ _ hfh
        have hfst := congrArg Prod.fst h
        have hsnd := congrArg Prod.snd h
        simp only at hfst hsnd
        obtain rfl := Option.some.inj hfst
        obtain ⟨hiabs, _, _, _, _, _, _, hsepc, _⟩ :=
          checkCandidate_spec d (buffer.data.map Sample.aMag) buffer.data.length t buffer i sh0 hci
        constructor
        · intro k hk
          rw [hiabs]
          exact hsepc k hk
        · rw [← hsnd]

/-- C10: a ShotDetector.processSample call that returns null - whether the
buffer is shorter than the 190 samples required, every scanned index fails
a gate, or a post-filter rejects - leaves the whole detector state
(lastShotTime and lastShotIdx included) unchanged, and a call that returns
a shot record updates exactly lastShotTime := currentTime and
lastShotIdx := shot.idx; no other outcome exists. -/
theorem c10_state_mutation :
    ∀ (d : ShotDetector) (buffer : IMUBuffer) (t : ℚ),
      d.processSample buffer t = (none, d) ∨
      ∃ sh, d.processSample buffer t =
        (some sh, { d with lastShotTime := t, lastShotIdx := some sh.idx }) := by
  intro d buffer t
  unfold ShotDetector.processSample
  by_cases hlen : buffer.data.length < SCAN_START_OFFSET + BASELINE_WINDOW + BASELINE_OFFSET
  · rw [if_pos hlen]
    exact Or.inl rfl
  · rw [if_neg hlen]
    cases hfh : firstHit
        (d.checkCandidate (buffer.data.map Sample.aMag) buffer.data.length t buffer)
        (List.range' (buffer.data.length - SCAN_START_OFFSET)
          (buffer.data.length - SCAN_END_OFFSET -
            (buffer.data.length - SCAN_START_OFFSET))) with
    | none => exact Or.inl rfl
    | some sh0 => exact Or.inr ⟨sh0, rfl⟩

set_option maxRecDepth 100000 in
/-- C4 counterexample: over a baseline with std exactly 2.5 (mean 12.25), the
16-peak at index 100 sits exactly 1.5 sigma above the mean, which coincides
with the clamped threshold mean + 2.5 * 1.5; the strict rejection test lets
it through and detectAll emits a shot at that peak. -/
theorem c4_counterexample :
    baselineStats (accSamples.map Sample.aMag) (100 - BASELINE_OFFSET) = some ⟨49/4, 5/2⟩ ∧
    amag (accSamples.map Sample.aMag) 100 = 16 ∧
    (16 : ℚ) = 49/4 + 1.5 * (5/2) ∧
    (14 : ℚ) ≤ 16 ∧
    ShotDetector.init.detectAll accSamples =
      [⟨100, 16, 2, 15, 14, 1010, 1010, none, none⟩] :=
  ⟨by decide, by decide, by decide, by decide, by decide⟩

/-- C4 (amended): with baseline std 2.5 the sigma gate rejects exactly the
peaks strictly below mean + 2.5 * min(2.5, 1.5) = mean + 3.75 = mean + 1.5σ,
so a candidate strictly below that bound never yields a shot at its index. -/
theorem c4_sigma_gate_under_motion :
    ∀ (d : ShotDetector) (imuData : List Sample) (i : ℕ) (b : Baseline),
      baselineStats (imuData.map Sample.aMag) (i - BASELINE_OFFSET) = some b →
      b.std = 5/2 →
      amag (imuData.map Sample.aMag) i < b.mean + PEAK_SIGMA * MAX_EFFECTIVE_STD →
      ((d.detectAll imuData).all fun sh => decide (sh.idx ≠ i)) = true := by
  intro d imuData i b hb hstd hpeak
  rw [List.all_eq_true]
  have key := foldlInv (detectStep d imuData (imuData.map Sample.aMag))
    (fun st => ∀ sh ∈ st.shots, decide (sh.idx ≠ i) = true)
    (List.range' (BASELINE_WINDOW + BASELINE_OFFSET)
      ((imuData.map Sample.aMag).length - DIP_SEARCH_WINDOW - RECOVERY_SEARCH_WINDOW -
        (BASELINE_WINDOW + BASELINE_OFFSET)))
    ⟨[], none, 0⟩ ?_ ?_
  · exact fun sh hsh => key sh hsh
  · intro j _ st hP
    rcases detectStep_spec d imuData (imuData.map Sample.aMag) st j with he |
      ⟨base, sh', heq, hbase, hidx, _, _, _, _, hpk, _, _, _, _, _⟩
    · rw [he]; exact hP
    · rw [heq]
      intro sh hsh
      rcases List.mem_append.mp hsh with hold | hnew
      · exact hP sh hold
      · rw [List.mem_singleton] at hnew
        subst hnew
        rw [decide_eq_true_eq, hidx]
        intro hji
        subst hji
        rw [hb] at hbase
        obtain rfl := (Option.some.inj hbase).symm
        rw [hstd] at hpk
        have hmin : min ((5 : ℚ)/2) MAX_EFFECTIVE_STD = MAX_EFFECTIVE_STD := by
          rw [min_eq_right]
          norm_num [MAX_EFFECTIVE_STD]
        rw [hmin] at hpk
        exact absurd hpeak (not_lt.mpr hpk)
  · exact fun sh hsh => absurd hsh (List.not_mem_nil sh)

set_option maxRecDepth 100000 in
/-- C4 witness: on the heavy-motion signal (mean 12.5, std 2.5) the 16-peak
is strictly below the clamped threshold 16.25 and detectAll emits nothing
at index 100. -/
theorem c4_witness :
    ((ShotDetector.init.detectAll motionSamples).all fun sh => decide (sh.idx ≠ 100)) = true :=
  c4_sigma_gate_under_motion ShotDetector.init motionSamples 100 ⟨25/2, 5/2⟩
    (by decide) (by decide) (by decide)

set_option maxRecDepth 100000 in
/-- C3 counterexample: detectAll accepts the plateau peak at index 100 even
though aMags[100] is not strictly greater than aMags[101] (both are 16). -/
theorem c3_counterexample :
    ShotDetector.init.detectAll plateauSamples =
      [⟨100, 16, 2, 15, 14, 1010, 1010, none, none⟩] ∧
    amag (plateauSamples.map Sample.aMag) 100 = 16 ∧
    amag (plateauSamples.map Sample.aMag) 101 = 16 :=
  ⟨by decide, by decide, by decide⟩

set_option maxRecDepth 100000 in
theorem c3_witness :
    amag (accSamples.map Sample.aMag) (100 - 1) < amag (accSamples.map Sample.aMag) 100 ∧
    amag (accSamples.map Sample.aMag) (100 + 1) ≤ amag (accSamples.map Sample.aMag) 100 := by
  have h := c3_local_max_necessity.1 ShotDetector.init accSamples
    ⟨100, 16, 2, 15, 14, 1010, 1010, none, none⟩ (by decide)
  exact h

set_option maxRecDepth 100000 in
theorem c1_witness :
    batchDipOk accSamples ⟨100, 16, 2, 15, 14, 1010, 1010, none, none⟩ ∧
    streamDipOk (streamBuf.data.map Sample.aMag) 190
      ⟨100, 100, 16, 2, 15, 14, 5000, none, none⟩ :=
  ⟨c1_dip_gate.1 ShotDetector.init accSamples
      ⟨100, 16, 2, 15, 14, 1010, 1010, none, none⟩ (by decide),
   c1_dip_gate.2 primedDetector (streamBuf.data.map Sample.aMag) 190 5000 streamBuf 100
      ⟨100, 100, 16, 2, 15, 14, 5000, none, none⟩ (by decide)⟩

set_option maxRecDepth 100000 in
theorem c2_witness :
    List.Pairwise (fun a b => a.idx + MIN_SHOT_SAMPLES ≤ b.idx)
      (ShotDetector.init.detectAll accSamples) ∧
    streamSepOk primedDetector ⟨5000, some 100, none, false, ConsensusOpts.empty⟩
      ⟨100, 100, 16, 2, 15, 14, 5000, none, none⟩ :=
  ⟨c2_min_separation.1 ShotDetector.init accSamples,
   c2_min_separation.2 primedDetector streamBuf 5000
      ⟨100, 100, 16, 2, 15, 14, 5000, none, none⟩
      ⟨5000, some 100, none, false, ConsensusOpts.empty⟩ (by decide)⟩

/-- C5: ShotDetectorConsensus.evaluate runs exactly the four methods
(window sigma, envelope ratio, dip depth, peak prominence) in order,
reports total = 4 and votes = the number of true votes, returns
isShot = true exactly when votes >= minVotes (opts.minVotes with the JS ||
default of 3) and confidence = votes / 4; flipping any single vote changes
the quorum decision exactly when the vote count crosses the minVotes
boundary. -/
theorem c5_consensus_quorum :
    (∀ (aMags : List ℚ) (peakIdx dipIdx recIdx : ℕ) (opts : ConsensusOpts),
      (ShotDetectorConsensus.evaluate aMags peakIdx dipIdx recIdx opts).methods =
        [ShotDetectorConsensus.windowSigma aMags peakIdx opts.windowSigma,
         ShotDetectorConsensus.envelopeRatio aMags peakIdx opts.envelopeRatio,
         ShotDetectorConsensus.dipDepth aMags peakIdx dipIdx opts.dipDepth,
         ShotDetectorConsensus.peakProminence aMags peakIdx opts.peakProminence] ∧
      (ShotDetectorConsensus.evaluate aMags peakIdx dipIdx recIdx opts).total = 4 ∧
      (ShotDetectorConsensus.evaluate aMags peakIdx dipIdx recIdx opts).votes =
        ((ShotDetectorConsensus.evaluate aMags peakIdx dipIdx recIdx opts).methods.filter
          (·.vote)).length ∧
      (ShotDetectorConsensus.evaluate aMags peakIdx dipIdx recIdx opts).confidence =
        ((ShotDetectorConsensus.evaluate aMags peakIdx dipIdx recIdx opts).votes : ℚ) / 4 ∧
      ((ShotDetectorConsensus.evaluate aMags peakIdx dipIdx recIdx opts).isShot = true ↔
        resolveN opts.minVotes 3 ≤
          (ShotDetectorConsensus.evaluate aMags peakIdx dipIdx recIdx opts).votes)) ∧
    (∀ v m : ℕ, consensusIsShot (v + 1) m ≠ consensusIsShot v m ↔ v + 1 = m) := by
  constructor
  · intro aMags peakIdx dipIdx recIdx opts
    refine ⟨rfl, rfl, rfl, ?_, ?_⟩
    · show ((ShotDetectorConsensus.evaluate aMags peakIdx dipIdx recIdx opts).votes : ℚ) /
        ((4 : ℕ) : ℚ) =
        ((ShotDetectorConsensus.evaluate aMags peakIdx dipIdx recIdx opts).votes : ℚ) / 4
      norm_num
    · simp only [ShotDetectorConsensus.evaluate, consensusIsShot, decide_eq_true_eq]
  · intro v m
    simp only [consensusIsShot, ne_eq, decide_eq_decide]
    omega

theorem c5_witness :
    ((ShotDetectorConsensus.evaluate accVals 100 105 109 ConsensusOpts.empty).isShot = true ↔
      resolveN ConsensusOpts.empty.minVotes 3 ≤
        (ShotDetectorConsensus.evaluate accVals 100 105 109 ConsensusOpts.empty).votes) ∧
    (consensusIsShot 3 3 ≠ consensusIsShot 2 3 ↔ 3 = 3) :=
  ⟨(c5_consensus_quorum.1 accVals 100 105 109 ConsensusOpts.empty).2.2.2.2,
   c5_consensus_quorum.2 2 3⟩

/-- C6: MotionCalibrator.classify is fail-open: for every feature vector it
returns isShot = true on a null calibration, on a calibration without a
profiles field ({} included), and on a calibration whose shooting profile
is null; being a total function it cannot throw. -/
theorem c6_classify_fail_open :
    ∀ f : FeatureVec,
      (MotionCalibrator.classify f none).isShot = true ∧
      (∀ c : Calibration, c.profiles = none →
        (MotionCalibrator.classify f (some c)).isShot = true) ∧
      (∀ (c : Calibration) (P : Profiles), c.profiles = some P → P.shooting = none →
        (MotionCalibrator.classify f (some c)).isShot = true) := by
  intro f
  refine ⟨rfl, ?_, ?_⟩
  · intro c hc
    obtain ⟨cp⟩ := c
    cases hc
    rfl
  · intro c P hc hP
    obtain ⟨cp⟩ := c
    cases hc
    obtain ⟨w, r, db, sh⟩ := P
    cases hP
    rfl

theorem c6_witness :
    (MotionCalibrator.classify zeroFeatures none).isShot = true ∧
    (MotionCalibrator.classify zeroFeatures (some ⟨none⟩)).isShot = true ∧
    (MotionCalibrator.classify zeroFeatures
      (some ⟨some ⟨none, none, none, none⟩⟩)).isShot = true :=
  ⟨(c6_classify_fail_open zeroFeatures).1,
   (c6_classify_fail_open zeroFeatures).2.1 ⟨none⟩ rfl,
   (c6_classify_fail_open zeroFeatures).2.2 ⟨some ⟨none, none, none, none⟩⟩
     ⟨none, none, none, none⟩ rfl rfl⟩

theorem sumQ_replicate (v : ℚ) :
    ∀ (n : ℕ) (acc : ℚ), List.foldl (· + ·) acc (List.replicate n v) = acc + n * v := by
  intro n
  induction n with
  | zero => intro acc; simp
  | succ m ih =>
    intro acc
    rw [List.replicate_succ, List.foldl_cons, ih]
    push_cast
    ring

theorem meanOf_replicate (v : ℚ) (n : ℕ) (hn : 0 < n) :
    meanOf (List.replicate n v) = v := by
  unfold meanOf sumQ
  rw [sumQ_replicate, List.length_replicate, zero_add, mul_comm, mul_div_assoc,
    div_self (by exact_mod_cast Nat.pos_iff_ne_zero.mp hn), mul_one]

theorem foldsq_replicate (v : ℚ) :
    ∀ (n : ℕ) (acc : ℚ),
      List.foldl (fun a x => a + (x - v) * (x - v)) acc (List.replicate n v) = acc := by
  intro n
  induction n with
  | zero => intro acc; simp
  | succ m ih =>
    intro acc
    rw [List.replicate_succ, List.foldl_cons, sub_self, mul_zero, add_zero, ih]

theorem varOf_replicate (v : ℚ) (n : ℕ) (hn : 0 < n) :
    varOf (List.replicate n v) = 0 := by
  unfold varOf
  rw [meanOf_replicate v n hn, foldsq_replicate, zero_div]

theorem foldmin_replicate (v : ℚ) : ∀ n : ℕ, List.foldl min v (List.replicate n v) = v := by
  intro n
  induction n with
  | zero => rfl
  | succ m ih => rw [List.replicate_succ, List.foldl_cons, min_self, ih]

theorem foldmax_replicate (v : ℚ) : ∀ n : ℕ, List.foldl max v (List.replicate n v) = v := by
  intro n
  induction n with
  | zero => rfl
  | succ m ih => rw [List.replicate_succ, List.foldl_cons, max_self, ih]

theorem listMin_replicate (v : ℚ) (m : ℕ) :
    listMin (List.replicate (m + 1) v) = v := by
  rw [List.replicate_succ]
  show List.foldl min v (List.replicate m v) = v
  exact foldmin_replicate v m

theorem listMax_replicate (v : ℚ) (m : ℕ) :
    listMax (List.replicate (m + 1) v) = v := by
  rw [List.replicate_succ]
  show List.foldl max v (List.replicate m v) = v
  exact foldmax_replicate v m

theorem sqrtQ_zero : sqrtQ 0 = 0 := rfl

theorem statOf_replicate (v : ℚ) (m : ℕ) :
    statOf (List.replicate (m + 1) v) = ⟨v, 0, v, v⟩ := by
  unfold statOf
  rw [if_neg (by simp)]
  rw [meanOf_replicate v (m + 1) (Nat.succ_pos m), varOf_replicate v (m + 1) (Nat.succ_pos m),
    sqrtQ_zero, listMin_replicate, listMax_replicate]

theorem computeProfile_cons (p : FeatureVec) (ps : List FeatureVec) :
    MotionCalibrator.computeProfile (p :: ps) = some {
      count := (p :: ps).length,
      peakMag := statOf ((p :: ps).map (·.peakMag)),
      dipMag := statOf ((p :: ps).map (·.dipMag)),
      recoveryMag := statOf ((p :: ps).map (·.recoveryMag)),
      range := statOf ((p :: ps).map (·.range)),
      dipRatio := statOf ((p :: ps).map (·.dipRatio)),
      peakToDipSamples := statOf ((p :: ps).map (·.peakToDipSamples)),
      dipToRecSamples := statOf ((p :: ps).map (·.dipToRecSamples)),
      totalDuration := statOf ((p :: ps).map (·.totalDuration)),
      gyroMagAtPeak := statOf ((p :: ps).map (·.gyroMagAtPeak)),
      gyroMagAtDip := statOf ((p :: ps).map (·.gyroMagAtDip)),
      maxGyroInWindow := statOf ((p :: ps).map (·.maxGyroInWindow)),
      gyroDipToRec := statOf ((p :: ps).map (·.gyroDipToRec)) } := rfl

/-- C7: MotionCalibrator.computeProfile returns null for an empty (or
missing) pattern list, and on n identical feature vectors returns a profile
with count = n in which every one of the 12 features has std = 0 and
mean = min = max = the shared value. -/
theorem c7_compute_profile :
    MotionCalibrator.computeProfile [] = none ∧
    ∀ (n : ℕ) (fv : FeatureVec), 0 < n →
      MotionCalibrator.computeProfile (List.replicate n fv) = some {
        count := n,
        peakMag := ⟨fv.peakMag, 0, fv.peakMag, fv.peakMag⟩,
        dipMag := ⟨fv.dipMag, 0, fv.dipMag, fv.dipMag⟩,
        recoveryMag := ⟨fv.recoveryMag, 0, fv.recoveryMag, fv.recoveryMag⟩,
        range := ⟨fv.range, 0, fv.range, fv.range⟩,
        dipRatio := ⟨fv.dipRatio, 0, fv.dipRatio, fv.dipRatio⟩,
        peakToDipSamples := ⟨fv.peakToDipSamples, 0, fv.peakToDipSamples, fv.peakToDipSamples⟩,
        dipToRecSamples := ⟨fv.dipToRecSamples, 0, fv.dipToRecSamples, fv.dipToRecSamples⟩,
        totalDuration := ⟨fv.totalDuration, 0, fv.totalDuration, fv.totalDuration⟩,
        gyroMagAtPeak := ⟨fv.gyroMagAtPeak, 0, fv.gyroMagAtPeak, fv.gyroMagAtPeak⟩,
        gyroMagAtDip := ⟨fv.gyroMagAtDip, 0, fv.gyroMagAtDip, fv.gyroMagAtDip⟩,
        maxGyroInWindow := ⟨fv.maxGyroInWindow, 0, fv.maxGyroInWindow, fv.maxGyroInWindow⟩,
        gyroDipToRec := ⟨fv.gyroDipToRec, 0, fv.gyroDipToRec, fv.gyroDipToRec⟩ } := by
  refine ⟨rfl, ?_⟩
  intro n fv hn
  obtain ⟨m, rfl⟩ : ∃ m, n = m + 1 := ⟨n - 1, by omega⟩
  rw [List.replicate_succ, computeProfile_cons]
  have hmap : ∀ f : FeatureVec → ℚ,
      (fv :: List.replicate m fv).map f = List.replicate (m + 1) (f fv) := by
    intro f
    rw [← List.replicate_succ, List.map_replicate]
  simp only [hmap, statOf_replicate, List.length_cons, List.length_replicate]

theorem c7_witness :
    MotionCalibrator.computeProfile (List.replicate 10 zeroFeatures) = some {
      count := 10,
      peakMag := ⟨0, 0, 0, 0⟩, dipMag := ⟨0, 0, 0, 0⟩, recoveryMag := ⟨0, 0, 0, 0⟩,
      range := ⟨0, 0, 0, 0⟩, dipRatio := ⟨0, 0, 0, 0⟩, peakToDipSamples := ⟨0, 0, 0, 0⟩,
      dipToRecSamples := ⟨0, 0, 0, 0⟩, totalDuration := ⟨0, 0, 0, 0⟩,
      gyroMagAtPeak := ⟨0, 0, 0, 0⟩, gyroMagAtDip := ⟨0, 0, 0, 0⟩,
      maxGyroInWindow := ⟨0, 0, 0, 0⟩, gyroDipToRec := ⟨0, 0, 0, 0⟩ } :=
  c7_compute_profile.2 10 zeroFeatures (by decide)

/-- C8: MovementDetector.processSample returns the prior moving state, with
isMoving/intensity/lastTransitionTime unchanged, until 20 samples have been
received; once the window is full it sets
intensity = clamp((std - 0.3) / 1.5, 0, 1) over the last 20 aMag values,
transitions to moving immediately when the window std exceeds 0.8, and
while moving transitions back to stationary exactly when the std is at or
below the threshold and more than 800 ms have elapsed since
lastTransitionTime (the field set at each state change and refreshed only
while the computed state agrees with the stored one). -/
theorem c8_movement_tracker :
    ∀ (st : MovementDetector) (a t : ℚ),
      ((st.windowAfter a).length < MOVEMENT_WINDOW →
        (st.processSample a t).1 = st.isMoving ∧
        (st.processSample a t).2.isMoving = st.isMoving ∧
        (st.processSample a t).2.intensity = st.intensity ∧
        (st.processSample a t).2.lastTransitionTime = st.lastTransitionTime) ∧
      (¬ (st.windowAfter a).length < MOVEMENT_WINDOW →
        ((st.processSample a t).2.intensity =
            max 0 (min 1 ((sqrtQ (varOf (st.windowAfter a)) - 0.3) / 1.5)) ∧
         (st.isMoving = false → MOVEMENT_THRESHOLD < sqrtQ (varOf (st.windowAfter a)) →
           (st.processSample a t).1 = true ∧
           (st.processSample a t).2.isMoving = true ∧
           (st.processSample a t).2.lastTransitionTime = t) ∧
         (st.isMoving = true →
           ((st.processSample a t).2.isMoving = false ↔
             (sqrtQ (varOf (st.windowAfter a)) ≤ MOVEMENT_THRESHOLD ∧
              MOVEMENT_HYSTERESIS_MS < t - st.lastTransitionTime))))) := by
  intro st a t
  constructor
  · intro hlen
    unfold MovementDetector.processSample
    rw [if_pos hlen]
    exact ⟨rfl, rfl, rfl, rfl⟩
  · intro hlen
    unfold MovementDetector.processSample MovementDetector.intensityOf
    rw [if_neg hlen]
    by_cases hstd : MOVEMENT_THRESHOLD < sqrtQ (varOf (st.windowAfter a))
    · cases hm : st.isMoving
      · rw [if_pos (by simp [hstd, hm])]
        rw [if_pos (by simp [hstd])]
        refine ⟨rfl, fun _ _ => ⟨rfl, rfl, rfl⟩, fun h => absurd h (by simp [hm])⟩
      · rw [if_neg (by simp [hstd, hm])]
        refine ⟨rfl, fun h => absurd h (by simp [hm]), fun _ => ?_⟩
        constructor
        · intro hfalse
          exact absurd hfalse (by simp)
        · intro ⟨hle, _⟩
          exact absurd hstd (not_lt.mpr hle)
    · cases hm : st.isMoving
      · rw [if_neg (by simp [hstd, hm])]
        refine ⟨rfl, fun _ habove => absurd habove hstd, fun h => absurd h (by simp [hm])⟩
      · rw [if_pos (by simp [hstd, hm])]
        rw [if_neg (by simp [hstd])]
        by_cases hdwell : MOVEMENT_HYSTERESIS_MS < t - st.lastTransitionTime
        · rw [if_pos hdwell]
          exact ⟨rfl, fun h => absurd h (by simp [hm]),
            fun _ => ⟨fun _ => ⟨not_lt.mp hstd, hdwell⟩, fun _ => rfl⟩⟩
        · rw [if_neg hdwell]
          refine ⟨rfl, fun h => absurd h (by simp [hm]), fun _ => ?_⟩
          constructor
          · intro hfalse
            exact absurd hfalse (by simp)
          · intro ⟨_, hd⟩
            exact absurd hd hdwell

set_option maxRecDepth 100000 in
theorem c8_witness :
    (MovementDetector.init.processSample 5 100).1 = MovementDetector.init.isMoving ∧
    ((⟨calmWindow, false, 0, 0⟩ : MovementDetector).processSample 2 100).2.intensity =
      max 0 (min 1 ((sqrtQ (varOf
        ((⟨calmWindow, false, 0, 0⟩ : MovementDetector).windowAfter 2)) - 0.3) / 1.5)) ∧
    ((⟨calmWindow, false, 0, 0⟩ : MovementDetector).processSample 2 100).2.isMoving = true ∧
    (((⟨calmWindow, true, 0, 0⟩ : MovementDetector).processSample 2 900).2.isMoving = false ↔
      (sqrtQ (varOf ((⟨calmWindow, true, 0, 0⟩ : MovementDetector).windowAfter 2)) ≤
          MOVEMENT_THRESHOLD ∧
       MOVEMENT_HYSTERESIS_MS <
          900 - (⟨calmWindow, true, 0, 0⟩ : MovementDetector).lastTransitionTime)) :=
  ⟨((c8_movement_tracker MovementDetector.init 5 100).1 (by decide)).1,
   ((c8_movement_tracker ⟨calmWindow, false, 0, 0⟩ 2 100).2 (by decide)).1,
   (((c8_movement_tracker ⟨calmWindow, false, 0, 0⟩ 2 100).2 (by decide)).2.1 rfl
      (by decide)).2.1,
   ((c8_movement_tracker ⟨calmWindow, true, 0, 0⟩ 2 900).2 (by decide)).2.2 rfl⟩

theorem push_preserves_params (b : IMUBuffer) (s : Sample) :
    (b.push s).maxSize = b.maxSize ∧ (b.push s).shiftSize = b.shiftSize := by
  unfold IMUBuffer.push
  dsimp only
  split <;> exact ⟨rfl, rfl⟩

theorem push_length_le (b : IMUBuffer) (s : Sample)
    (h1 : 1 ≤ b.shiftSize) (h2 : b.data.length ≤ b.maxSize) :
    (b.push s).data.length ≤ b.maxSize := by
  unfold IMUBuffer.push
  dsimp only
  split
  next hover =>
    simp only [List.length_drop, List.length_append, List.length_singleton]
    omega
  next hover =>
    simp only [List.length_append, List.length_singleton] at hover ⊢
    omega

theorem push_liveAt_stable (b : IMUBuffer) (s : Sample)
    (hss : b.shiftSize ≤ b.maxSize) (a : ℕ) (x y : Sample)
    (hx : b.liveAt a = some x) (hy : (b.push s).liveAt a = some y) : x = y := by
  unfold IMUBuffer.liveAt at hx hy
  by_cases hlo : a < b.offset
  · rw [if_pos hlo] at hx; exact Option.noConfusion hx
  · rw [if_neg hlo] at hx
    have hbound : a - b.offset < b.data.length := by
      by_contra hcon
      rw [List.getElem?_eq_none (by omega)] at hx
      exact Option.noConfusion hx
    unfold IMUBuffer.push at hy
    dsimp only at hy
    split at hy
    next hover =>
      simp only at hy
      by_cases hlo2 : a < b.offset + b.shiftSize
      · rw [if_pos hlo2] at hy; exact Option.noConfusion hy
      · rw [if_neg hlo2] at hy
        rw [List.getElem?_drop] at hy
        have hk : b.shiftSize ≤ b.data.length := by
          simp only [List.length_append, List.length_singleton] at hover
          omega
        have heq : b.shiftSize + (a - (b.offset + b.shiftSize)) = a - b.offset := by omega
        rw [heq] at hy
        rw [List.getElem?_append_left hbound] at hy
        rw [hx] at hy
        exact Option.some.inj hy
    next hover =>
      simp only at hy
      rw [List.getElem?_append_left hbound] at hy
      rw [hx] at hy
      exact Option.some.inj hy

theorem push_liveAt_new (b : IMUBuffer) (s : Sample) (hss : b.shiftSize ≤ b.maxSize) :
    (b.push s).liveAt (b.offset + b.data.length) = some s := by
  unfold IMUBuffer.liveAt IMUBuffer.push
  dsimp only
  split
  next hover =>
    have hk : b.shiftSize ≤ b.data.length := by
      simp only [List.length_append, List.length_singleton] at hover
      omega
    simp only
    rw [if_neg (by omega)]
    rw [List.getElem?_drop]
    have heq : b.shiftSize + (b.offset + b.data.length - (b.offset + b.shiftSize)) =
        b.data.length := by omega
    rw [heq]
    exact List.getElem?_concat_length b.data s
  next hover =>
    simp only
    rw [if_neg (by omega)]
    have heq : b.offset + b.data.length - b.offset = b.data.length := by omega
    rw [heq]
    exact List.getElem?_concat_length b.data s

theorem push_total_index (b : IMUBuffer) (s : Sample) (hss : b.shiftSize ≤ b.maxSize) :
    (b.push s).offset + (b.push s).data.length = b.offset + b.data.length + 1 := by
  unfold IMUBuffer.push
  dsimp only
  split
  next hover =>
    simp only [List.length_drop, List.length_append, List.length_singleton] at hover ⊢
    omega
  next hover =>
    simp only [List.length_append, List.length_singleton]
    omega

theorem pushAll_inv (M S : ℕ) (h1 : 1 ≤ S) (h2 : S ≤ M) (ss : List Sample) :
    (reachedBuffer M S ss).maxSize = M ∧ (reachedBuffer M S ss).shiftSize = S ∧
    (reachedBuffer M S ss).data.length ≤ M := by
  unfold reachedBuffer IMUBuffer.pushAll
  refine foldlInv IMUBuffer.push
    (fun b => b.maxSize = M ∧ b.shiftSize = S ∧ b.data.length ≤ M) ss
    (IMUBuffer.init M S) ?_ ⟨rfl, rfl, by simp [IMUBuffer.init]⟩
  intro x _ b hb
  obtain ⟨hM, hS, hlen⟩ := hb
  have hp := push_preserves_params b x
  refine ⟨hp.1.trans hM, hp.2.trans hS, ?_⟩
  have := push_length_le b x (by omega) (by omega)
  omega

/-- C9: for every sequence of pushes into a fresh IMUBuffer (with
1 <= shiftSize <= maxSize, as with the 3000/1000 constructor defaults) and
through any number of capacity compactions: the live window never exceeds
maxSize after a push completes; a sample that remains in the buffer across
a push keeps its absolute index bound to the same sample (never changed,
never reassigned); and the absolute index assigned to each newly pushed
sample, offset + length, grows by exactly one per push, so successively
pushed samples get strictly increasing absolute indices. -/
theorem c9_buffer_invariants :
    ∀ (M S : ℕ), 1 ≤ S → S ≤ M → ∀ (ss : List Sample) (s : Sample),
      (reachedBuffer M S ss).data.length ≤ M ∧
      (∀ (a : ℕ) (x y : Sample), (reachedBuffer M S ss).liveAt a = some x →
        ((reachedBuffer M S ss).push s).liveAt a = some y → x = y) ∧
      ((reachedBuffer M S ss).push s).liveAt
        ((reachedBuffer M S ss).offset + (reachedBuffer M S ss).data.length) = some s ∧
      ((reachedBuffer M S ss).push s).offset +
        ((reachedBuffer M S ss).push s).data.length =
        (reachedBuffer M S ss).offset + (reachedBuffer M S ss).data.length + 1 := by
  intro M S h1 h2 ss s
  obtain ⟨hM, hS, hlen⟩ := pushAll_inv M S h1 h2 ss
  refine ⟨hlen, ?_, ?_, ?_⟩
  · intro a x y hx hy
    exact push_liveAt_stable _ s (by omega) a x y hx hy
  · exact push_liveAt_new _ s (by omega)
  · exact push_total_index _ s (by omega)

theorem c9_witness :
    (reachedBuffer 2 1 (samplesOf [1, 2, 3])).data.length ≤ 2 ∧
    (⟨30, 30, 3, 0, 0, 0⟩ : Sample) = ⟨30, 30, 3, 0, 0, 0⟩ ∧
    ((reachedBuffer 2 1 (samplesOf [1, 2, 3])).push ⟨40, 40, 4, 0, 0, 0⟩).liveAt
      ((reachedBuffer 2 1 (samplesOf [1, 2, 3])).offset +
        (reachedBuffer 2 1 (samplesOf [1, 2, 3])).data.length) =
      some ⟨40, 40, 4, 0, 0, 0⟩ ∧
    ((reachedBuffer 2 1 (samplesOf [1, 2, 3])).push ⟨40, 40, 4, 0, 0, 0⟩).offset +
      ((reachedBuffer 2 1 (samplesOf [1, 2, 3])).push ⟨40, 40, 4, 0, 0, 0⟩).data.length =
      (reachedBuffer 2 1 (samplesOf [1, 2, 3])).offset +
        (reachedBuffer 2 1 (samplesOf [1, 2, 3])).data.length + 1 :=
  ⟨(c9_buffer_invariants 2 1 (by decide) (by decide) (samplesOf [1, 2, 3])
      ⟨40, 40, 4, 0, 0, 0⟩).1,
   (c9_buffer_invariants 2 1 (by decide) (by decide) (samplesOf [1, 2, 3])
      ⟨40, 40, 4, 0, 0, 0⟩).2.1 2 ⟨30, 30, 3, 0, 0, 0⟩ ⟨30, 30, 3, 0, 0, 0⟩
      (by decide) (by decide),
   (c9_buffer_invariants 2 1 (by decide) (by decide) (samplesOf [1, 2, 3])
      ⟨40, 40, 4, 0, 0, 0⟩).2.2.1,
   (c9_buffer_invariants 2 1 (by decide) (by decide) (samplesOf [1, 2, 3])
      ⟨40, 40, 4, 0, 0, 0⟩).2.2.2⟩
